import Mathlib

set_option maxHeartbeats 1000000

/-!
Verification development for the native core of the php-machine-emulator
project (directory `src/rust/src`): the register / control-register state
machine with its paging-based address translator (`memory_accessor`), and
the sparse, lazily growing backing store (`memory_stream`).

The Rust code is shallowly embedded:

* machine integers are modelled as `Nat` bit patterns with the masks the
  source applies (`u8` cells are masked with `0xFF` on read, matching the
  `u8` type of the underlying array; `i64` register values are modelled as
  their 64-bit two's-complement bit pattern, and `i64` arguments crossing
  the FFI boundary are modelled as `Int` converted by reduction
  mod `2 ^ 64`);
* the `MemoryAccessor`'s raw pointer to the backing store is modelled as a
  total byte map `mem : Nat → Nat` (the store-level capacity bookkeeping is
  modelled separately, on the `MemoryStream` model, for the store-level
  claims);
* every Rust function keeps its name, and its body is translated
  if-for-if, mask-for-mask from the source.
-/

/-- Pointwise update of a function `Nat → Nat`, used to model in-place
array/byte writes. -/
def updFn (f : Nat → Nat) (i v : Nat) : Nat → Nat :=
  fun j => if j = i then v else f j

/-- Pointwise update of a function `Nat → Bool`. -/
def updFnB (f : Nat → Bool) (i : Nat) (v : Bool) : Nat → Bool :=
  fun j => if j = i then v else f j

/-- Two's-complement 64-bit pattern of an `i64` value crossing the FFI
boundary (Rust `value as u64`). -/
def toBits64 (v : Int) : Nat :=
  (v % (2 ^ 64 : Int)).toNat

/-- Model of the Rust `MemoryAccessor` struct (`memory_accessor.rs`,
`memory_accessor/core/*.rs`).  The register file has 26 slots
(`MAX_REGISTER_ADDRESS`), the control-register file has 9 slots; both are
modelled as total maps read only below those bounds.  CPU flags other than
`instruction_fetch` are omitted: no function modelled here reads or writes
them. -/
structure MemoryAccessor where
  registers : Nat → Nat
  registersAllocated : Nat → Bool
  instruction_fetch : Bool
  efer : Nat
  control_registers : Nat → Nat
  mem : Nat → Nat

namespace MemoryAccessor

/-- Rust `MAX_REGISTER_ADDRESS` (26). -/
def MAX_REGISTER_ADDRESS : Nat := 26

/-- Rust `MemoryAccessor::is_register_address`
(`core/registers.rs`): `(0..=13).contains(&address) || (16..=25).contains(&address)`. -/
def is_register_address (address : Nat) : Prop :=
  address ≤ 13 ∨ (16 ≤ address ∧ address ≤ 25)

instance (address : Nat) : Decidable (is_register_address address) := by
  unfold is_register_address; infer_instance

/-- Rust `MemoryAccessor::is_gpr_address`
(`core/registers.rs`): `(0..=7).contains(&address) || (16..=24).contains(&address)`. -/
def is_gpr_address (address : Nat) : Prop :=
  address ≤ 7 ∨ (16 ≤ address ∧ address ≤ 24)

instance (address : Nat) : Decidable (is_gpr_address address) := by
  unfold is_gpr_address; infer_instance

/-- Rust `read_from_memory` (`core/memory.rs`): one `u8` cell of the
backing store; the `&&& 0xFF` models the `u8` cell type. -/
def read_from_memory (s : MemoryAccessor) (address : Nat) : Nat :=
  s.mem address &&& 0xFF

/-- Rust `write_to_memory` (`core/memory.rs`). -/
def write_to_memory (s : MemoryAccessor) (address v : Nat) : MemoryAccessor :=
  { s with mem := updFn s.mem address v }

/-- Rust `read_physical_32` (`core/memory.rs`): little-endian. -/
def read_physical_32 (s : MemoryAccessor) (address : Nat) : Nat :=
  s.read_from_memory address |||
    (s.read_from_memory (address + 1)) <<< 8 |||
    (s.read_from_memory (address + 2)) <<< 16 |||
    (s.read_from_memory (address + 3)) <<< 24

/-- Rust `write_physical_32` (`core/memory.rs`). -/
def write_physical_32 (s : MemoryAccessor) (address v : Nat) : MemoryAccessor :=
  ((((s.write_to_memory address (v &&& 0xFF)).write_to_memory
      (address + 1) ((v >>> 8) &&& 0xFF)).write_to_memory
      (address + 2) ((v >>> 16) &&& 0xFF)).write_to_memory
      (address + 3) ((v >>> 24) &&& 0xFF))

/-- Rust `read_physical_64` (`core/memory.rs`). -/
def read_physical_64 (s : MemoryAccessor) (address : Nat) : Nat :=
  s.read_physical_32 address ||| (s.read_physical_32 (address + 4)) <<< 32

/-- Rust `write_physical_64` (`core/memory.rs`). -/
def write_physical_64 (s : MemoryAccessor) (address v : Nat) : MemoryAccessor :=
  (s.write_physical_32 address (v &&& 0xFFFFFFFF)).write_physical_32
    (address + 4) ((v >>> 32) &&& 0xFFFFFFFF)

/-- Rust `translate_linear_32` (`memory_accessor/paging.rs`, lines 57-153):
legacy 32-bit two-level walk.  Returns the mutated accessor together with
`(physical, error_code)`. -/
def translate_linear_32 (s : MemoryAccessor) (linear : Nat)
    (is_write is_user pse : Bool) : MemoryAccessor × Nat × Nat :=
  let cr3 := s.control_registers 3 &&& 0xFFFFF000
  let dir_index := (linear >>> 22) &&& 0x3FF
  let table_index := (linear >>> 12) &&& 0x3FF
  let offset := linear &&& 0xFFF
  let pde_addr := (cr3 + dir_index * 4) &&& 0xFFFFFFFF
  let pde := s.read_physical_32 pde_addr
  if pde &&& 0x1 = 0 then
    (s, linear, (0x0E <<< 16) |||
      ((if is_write then 0b10 else 0) ||| (if is_user then 0b100 else 0)))
  else if pde &&& 0xFFFFFF000 = 0 then
    (s, linear, (0x0E <<< 16) |||
      (0x08 ||| (if s.instruction_fetch then 0x10 else 0)))
  else if is_user ∧ pde &&& 0x4 = 0 then
    (s, linear, (0x0E <<< 16) |||
      ((if is_write then 0b10 else 0) ||| 0b100 ||| 0b1))
  else if is_write ∧ pde &&& 0x2 = 0 then
    (s, linear, (0x0E <<< 16) |||
      (0b10 ||| (if is_user then 0b100 else 0) ||| 0b1))
  else if pse ∧ pde &&& (1 <<< 7) ≠ 0 then
    let base := pde &&& 0xFFC00000
    let pde2 := (pde ||| 0x20) ||| (if is_write then 0x40 else 0)
    let s2 := s.write_physical_32 pde_addr pde2
    (s2, (base + (linear &&& 0x3FFFFF)) &&& 0xFFFFFFFF, 0)
  else
    let pte_addr := ((pde &&& 0xFFFFF000) + table_index * 4) &&& 0xFFFFFFFF
    let pte := s.read_physical_32 pte_addr
    if pte &&& 0x1 = 0 then
      (s, linear, (0x0E <<< 16) |||
        ((if is_write then 0b10 else 0) ||| (if is_user then 0b100 else 0)))
    else if pte &&& 0xFFFFFF000 = 0 then
      (s, linear, (0x0E <<< 16) |||
        (0x08 ||| (if s.instruction_fetch then 0x10 else 0)))
    else if is_user ∧ pte &&& 0x4 = 0 then
      (s, linear, (0x0E <<< 16) |||
        ((if is_write then 0b10 else 0) ||| 0b100 ||| 0b1))
    else if is_write ∧ pte &&& 0x2 = 0 then
      (s, linear, (0x0E <<< 16) |||
        (0b10 ||| (if is_user then 0b100 else 0) ||| 0b1))
    else
      let s2 := s.write_physical_32 pde_addr (pde ||| 0x20)
      let pte2 := (pte ||| 0x20) ||| (if is_write then 0x40 else 0)
      let s3 := s2.write_physical_32 pte_addr pte2
      (s3, ((pte &&& 0xFFFFF000) + offset) &&& 0xFFFFFFFF, 0)

/-- Rust `translate_linear_pae` (`memory_accessor/paging.rs`,
lines 156-263): PAE three-level walk. -/
def translate_linear_pae (s : MemoryAccessor) (linear : Nat)
    (is_write is_user : Bool) : MemoryAccessor × Nat × Nat :=
  let cr3 := s.control_registers 3 &&& 0xFFFFF000
  let pdp_index := (linear >>> 30) &&& 0x3
  let dir_index := (linear >>> 21) &&& 0x1FF
  let table_index := (linear >>> 12) &&& 0x1FF
  let offset := linear &&& 0xFFF
  let pdpte_addr := (cr3 + pdp_index * 8) &&& 0xFFFFFFFF
  let pdpte := s.read_physical_64 pdpte_addr
  if pdpte &&& 0x1 = 0 then
    (s, linear, (0x0E <<< 16) |||
      ((if is_write then 0b10 else 0) ||| (if is_user then 0b100 else 0)))
  else if is_user ∧ pdpte &&& 0x4 = 0 then
    (s, linear, (0x0E <<< 16) |||
      ((if is_write then 0b10 else 0) ||| 0b100 ||| 0b1))
  else if is_write ∧ pdpte &&& 0x2 = 0 then
    (s, linear, (0x0E <<< 16) |||
      (0b10 ||| (if is_user then 0b100 else 0) ||| 0b1))
  else
    let s1 := s.write_physical_64 pdpte_addr (pdpte ||| (1 <<< 5))
    let pde_addr := ((pdpte &&& 0xFFFFFF000) + dir_index * 8) &&& 0xFFFFFFFF
    let pde := s1.read_physical_64 pde_addr
    if pde &&& 0x1 = 0 then
      (s1, linear, (0x0E <<< 16) |||
        ((if is_write then 0b10 else 0) ||| (if is_user then 0b100 else 0)))
    else if is_user ∧ pde &&& 0x4 = 0 then
      (s1, linear, (0x0E <<< 16) |||
        ((if is_write then 0b10 else 0) ||| 0b100 ||| 0b1))
    else if is_write ∧ pde &&& 0x2 = 0 then
      (s1, linear, (0x0E <<< 16) |||
        (0b10 ||| (if is_user then 0b100 else 0) ||| 0b1))
    else if pde &&& (1 <<< 7) ≠ 0 then
      let pde2 := (pde ||| 0x20) ||| (if is_write then 0x40 else 0)
      let s2 := s1.write_physical_64 pde_addr pde2
      let base := pde2 &&& 0xFFE00000
      (s2, (base + (linear &&& 0x1FFFFF)) &&& 0xFFFFFFFF, 0)
    else
      let pte_addr := ((pde &&& 0xFFFFFF000) + table_index * 8) &&& 0xFFFFFFFF
      let pte := s1.read_physical_64 pte_addr
      if pte &&& 0x1 = 0 then
        (s1, linear, (0x0E <<< 16) |||
          ((if is_write then 0b10 else 0) ||| (if is_user then 0b100 else 0)))
      else if is_user ∧ pte &&& 0x4 = 0 then
        (s1, linear, (0x0E <<< 16) |||
          ((if is_write then 0b10 else 0) ||| 0b100 ||| 0b1))
      else if is_write ∧ pte &&& 0x2 = 0 then
        (s1, linear, (0x0E <<< 16) |||
          (0b10 ||| (if is_user then 0b100 else 0) ||| 0b1))
      else
        let s2 := s1.write_physical_64 pde_addr (pde ||| 0x20)
        let pte2 := (pte ||| 0x20) ||| (if is_write then 0x40 else 0)
        let s3 := s2.write_physical_64 pte_addr pte2
        (s3, ((pte &&& 0xFFFFFF000) + offset) &&& 0xFFFFFFFF, 0)

/-- Rust `translate_linear_ia32e` (`memory_accessor/paging.rs`,
lines 269-394): IA-32e four-level walk. -/
def translate_linear_ia32e (s : MemoryAccessor) (linear : Nat)
    (is_write is_user : Bool) : MemoryAccessor × Nat × Nat :=
  let cr3 := s.control_registers 3 &&& 0xFFFFF000
  let pml4_index := (linear >>> 39) &&& 0x1FF
  let pdpt_index := (linear >>> 30) &&& 0x1FF
  let dir_index := (linear >>> 21) &&& 0x1FF
  let table_index := (linear >>> 12) &&& 0x1FF
  let offset := linear &&& 0xFFF
  let pml4e_addr := (cr3 + pml4_index * 8) &&& 0xFFFFFFFF
  let pml4e := s.read_physical_64 pml4e_addr
  if pml4e &&& 0x1 = 0 then
    (s, linear, (0x0E <<< 16) |||
      ((if is_write then 0b10 else 0) ||| (if is_user then 0b100 else 0)))
  else if is_user ∧ pml4e &&& 0x4 = 0 then
    (s, linear, (0x0E <<< 16) |||
      ((if is_write then 0b10 else 0) ||| 0b100 ||| 0b1))
  else if is_write ∧ pml4e &&& 0x2 = 0 then
    (s, linear, (0x0E <<< 16) |||
      (0b10 ||| (if is_user then 0b100 else 0) ||| 0b1))
  else
    let s1 := s.write_physical_64 pml4e_addr (pml4e ||| (1 <<< 5))
    let pdpte_addr := ((pml4e &&& 0xFFFFFF000) + pdpt_index * 8) &&& 0xFFFFFFFF
    let pdpte := s1.read_physical_64 pdpte_addr
    if pdpte &&& 0x1 = 0 then
      (s1, linear, (0x0E <<< 16) |||
        ((if is_write then 0b10 else 0) ||| (if is_user then 0b100 else 0)))
    else if is_user ∧ pdpte &&& 0x4 = 0 then
      (s1, linear, (0x0E <<< 16) |||
        ((if is_write then 0b10 else 0) ||| 0b100 ||| 0b1))
    else if is_write ∧ pdpte &&& 0x2 = 0 then
      (s1, linear, (0x0E <<< 16) |||
        (0b10 ||| (if is_user then 0b100 else 0) ||| 0b1))
    else
      let s2 := s1.write_physical_64 pdpte_addr (pdpte ||| (1 <<< 5))
      if pdpte &&& (1 <<< 7) ≠ 0 then
        let pdpte2 := (pdpte ||| 0x20) ||| (if is_write then 0x40 else 0)
        let s3 := s2.write_physical_64 pdpte_addr pdpte2
        let base := pdpte &&& 0x000FFFFFC0000000
        (s3, (base + (linear &&& 0x3FFFFFFF)) &&& 0xFFFFFFFF, 0)
      else
        let pde_addr := ((pdpte &&& 0xFFFFFF000) + dir_index * 8) &&& 0xFFFFFFFF
        let pde := s2.read_physical_64 pde_addr
        if pde &&& 0x1 = 0 then
          (s2, linear, (0x0E <<< 16) |||
            ((if is_write then 0b10 else 0) ||| (if is_user then 0b100 else 0)))
        else if is_user ∧ pde &&& 0x4 = 0 then
          (s2, linear, (0x0E <<< 16) |||
            ((if is_write then 0b10 else 0) ||| 0b100 ||| 0b1))
        else if is_write ∧ pde &&& 0x2 = 0 then
          (s2, linear, (0x0E <<< 16) |||
            (0b10 ||| (if is_user then 0b100 else 0) ||| 0b1))
        else if pde &&& (1 <<< 7) ≠ 0 then
          let pde2 := (pde ||| 0x20) ||| (if is_write then 0x40 else 0)
          let s3 := s2.write_physical_64 pde_addr pde2
          let base := pde &&& 0xFFE00000
          (s3, (base + (linear &&& 0x1FFFFF)) &&& 0xFFFFFFFF, 0)
        else
          let pte_addr := ((pde &&& 0xFFFFFF000) + table_index * 8) &&& 0xFFFFFFFF
          let pte := s2.read_physical_64 pte_addr
          if pte &&& 0x1 = 0 then
            (s2, linear, (0x0E <<< 16) |||
              ((if is_write then 0b10 else 0) ||| (if is_user then 0b100 else 0)))
          else if is_user ∧ pte &&& 0x4 = 0 then
            (s2, linear, (0x0E <<< 16) |||
              ((if is_write then 0b10 else 0) ||| 0b100 ||| 0b1))
          else if is_write ∧ pte &&& 0x2 = 0 then
            (s2, linear, (0x0E <<< 16) |||
              (0b10 ||| (if is_user then 0b100 else 0) ||| 0b1))
          else
            let s3 := s2.write_physical_64 pde_addr (pde ||| 0x20)
            let pte2 := (pte ||| 0x20) ||| (if is_write then 0x40 else 0)
            let s4 := s3.write_physical_64 pte_addr pte2
            (s4, ((pte &&& 0xFFFFFF000) + offset) &&& 0xFFFFFFFF, 0)

/-- Rust `translate_linear` (`memory_accessor/paging.rs`, lines 8-54):
mask, dispatch on CR4.PSE / CR4.PAE / EFER.LME, and record CR2 on fault. -/
def translate_linear (s : MemoryAccessor) (linear : Nat)
    (is_write is_user paging_enabled : Bool) (linear_mask : Nat) :
    MemoryAccessor × Nat × Nat :=
  let linear := linear &&& linear_mask
  if ¬ paging_enabled then
    (s, linear, 0)
  else
    let cr4 := s.control_registers 4
    let pse := cr4 &&& (1 <<< 4) != 0
    let pae := cr4 &&& (1 <<< 5) != 0
    let lme := s.efer &&& (1 <<< 8) != 0
    let res :=
      if pae then
        if lme then s.translate_linear_ia32e linear is_write is_user
        else s.translate_linear_pae linear is_write is_user
      else
        s.translate_linear_32 linear is_write is_user pse
    let sw := res.1
    let physical := res.2.1
    let err := res.2.2
    if err ≠ 0 then
      let cr2 :=
        if pae ∧ lme then
          if linear &&& (1 <<< 47) ≠ 0 then linear ||| 0xFFFF000000000000
          else linear
        else
          linear &&& 0xFFFFFFFF
      ({ sw with control_registers := updFn sw.control_registers 2 cr2 },
        physical, err)
    else
      (sw, physical, err)

/-- Rust `fetch` (`core/registers.rs`): register slot, or a raw byte read
against the backing store for non-register addresses. -/
def fetch (s : MemoryAccessor) (address : Nat) : Nat :=
  if is_register_address address ∧ address < MAX_REGISTER_ADDRESS then
    s.registers address
  else
    s.mem address &&& 0xFF

/-- Rust `fetch_by_size` (`core/registers.rs`). -/
def fetch_by_size (s : MemoryAccessor) (address size : Nat) : Nat :=
  let value := s.fetch address
  if size = 8 then value &&& 0xFF
  else if size = 16 then value &&& 0xFFFF
  else if size = 32 then value &&& 0xFFFFFFFF
  else value

/-- Memory branch of Rust `write_by_size`: write `size / 8` little-endian
bytes of the value at `address`. -/
def write_bytes_loop (s : MemoryAccessor) (address v : Nat) :
    Nat → Nat → MemoryAccessor
  | _, 0 => s
  | i, n + 1 =>
    write_bytes_loop (s.write_to_memory (address + i) ((v >>> (i * 8)) &&& 0xFF))
      address v (i + 1) n

/-- Rust `write_by_size` (`core/registers.rs`, lines 112-143).  The `i64`
argument is an `Int`; register slots store 64-bit patterns. -/
def write_by_size (s : MemoryAccessor) (address : Nat) (value : Int)
    (size : Nat) : MemoryAccessor :=
  if is_register_address address ∧ address < MAX_REGISTER_ADDRESS then
    let s := { s with registersAllocated := updFnB s.registersAllocated address true }
    if is_gpr_address address then
      let current := s.registers address
      let new_value :=
        if size = 8 then (current &&& 0xFFFFFFFFFFFFFF00) ||| (toBits64 value &&& 0xFF)
        else if size = 16 then (current &&& 0xFFFFFFFFFFFF0000) ||| (toBits64 value &&& 0xFFFF)
        else if size = 32 then toBits64 value &&& 0xFFFFFFFF
        else toBits64 value
      { s with registers := updFn s.registers address new_value }
    else
      { s with registers := updFn s.registers address (toBits64 value) }
  else
    write_bytes_loop s address (toBits64 value) 0 (size / 8)

/-- Rust `write_16bit` (`core/registers.rs`). -/
def write_16bit (s : MemoryAccessor) (address : Nat) (value : Int) :
    MemoryAccessor :=
  s.write_by_size address value 16

/-- Rust `add` (`core/registers.rs`, lines 185-188): masks the fetched
current value to its low byte before adding. -/
def add (s : MemoryAccessor) (address : Nat) (value : Int) : MemoryAccessor :=
  let current := s.fetch address &&& 0xFF
  s.write_16bit address ((current : Int) + value)

/-- Rust `sub` (`core/registers.rs`). -/
def sub (s : MemoryAccessor) (address : Nat) (value : Int) : MemoryAccessor :=
  s.add address (-value)

/-- Rust `increment` (`core/registers.rs`). -/
def increment (s : MemoryAccessor) (address : Nat) : MemoryAccessor :=
  s.add address 1

/-- Rust `decrement` (`core/registers.rs`). -/
def decrement (s : MemoryAccessor) (address : Nat) : MemoryAccessor :=
  s.sub address 1

end MemoryAccessor

/-- A freshly constructed accessor (Rust `MemoryAccessor::new` with an
all-zero backing store): registers zeroed and unallocated, flags clear,
EFER 0, CR0 = 0x22 and the other control registers 0. -/
def demoBase : MemoryAccessor :=
  { registers := fun _ => 0
    registersAllocated := fun _ => false
    instruction_fetch := false
    efer := 0
    control_registers := fun i => if i = 0 then 0x22 else 0
    mem := fun _ => 0 }

/-- Legacy-paging demo state: CR3 = 0x1000 and a single present,
writable, user PDE at index 0 pointing at a page table at 0x2000 whose
entry 0 maps physical page 0x5000 (present, writable, user). -/
def demoLegacy : MemoryAccessor :=
  let s := { demoBase with
    control_registers := fun i => if i = 3 then 0x1000 else if i = 0 then 0x22 else 0 }
  let s := s.write_physical_32 0x1000 (0x2000 ||| 0x7)
  s.write_physical_32 0x2000 (0x5000 ||| 0x7)

/-- Legacy-paging demo state whose PDE at index 0 is present with an
all-zero physical base (reserved-bits fault at the directory level). -/
def demoLegacyRsvdPde : MemoryAccessor :=
  let s := { demoBase with
    control_registers := fun i => if i = 3 then 0x1000 else if i = 0 then 0x22 else 0 }
  s.write_physical_32 0x1000 0x7

/-- Legacy-paging demo state whose PDE points at a page table at 0x2000
whose entry 0 is present with an all-zero physical base (reserved-bits
fault at the table level). -/
def demoLegacyRsvdPte : MemoryAccessor :=
  let s := { demoBase with
    control_registers := fun i => if i = 3 then 0x1000 else if i = 0 then 0x22 else 0 }
  let s := s.write_physical_32 0x1000 (0x2000 ||| 0x7)
  s.write_physical_32 0x2000 0x7

/-- PAE demo state: CR4.PAE set, CR3 = 0x1000, a present/rw/user PDPTE at
index 0 pointing at a page directory at 0x2000 whose entry 0 is not
present. -/
def demoPaeFault : MemoryAccessor :=
  let s := { demoBase with
    control_registers := fun i =>
      if i = 3 then 0x1000 else if i = 4 then 1 <<< 5 else if i = 0 then 0x22 else 0 }
  s.write_physical_64 0x1000 (0x2000 ||| 0x7)

/-- IA-32e demo state from the repository's own test: EFER.LME and
CR4.PAE set, PML4 at 0x1000 → PDPT at 0x2000 → PD at 0x3000 → PT at
0x4000, identity-mapping linear 0x123000 with present/rw/user entries. -/
def demoIa32e : MemoryAccessor :=
  let s := { demoBase with
    efer := 1 <<< 8
    control_registers := fun i =>
      if i = 3 then 0x1000 else if i = 4 then 1 <<< 5 else if i = 0 then 0x22 else 0 }
  let s := s.write_physical_64 0x1000 (0x2000 ||| 0x7)
  let s := s.write_physical_64 0x2000 (0x3000 ||| 0x7)
  let s := s.write_physical_64 0x3000 (0x4000 ||| 0x7)
  s.write_physical_64 (0x4000 + 0x123 * 8) (0x123000 ||| 0x7)

/-- IA-32e demo state where the PML4E and PDPTE are present/rw/user but
the PDE is not present. -/
def demoIa32eFault : MemoryAccessor :=
  let s := { demoBase with
    efer := 1 <<< 8
    control_registers := fun i =>
      if i = 3 then 0x1000 else if i = 4 then 1 <<< 5 else if i = 0 then 0x22 else 0 }
  let s := s.write_physical_64 0x1000 (0x2000 ||| 0x7)
  s.write_physical_64 0x2000 (0x3000 ||| 0x7)

/-! Shallow embedding of `src/rust/src/memory_stream.rs` together with
`memory_stream/core/{meta,access,copy}.rs`.  The sparse page vector
`pages : Vec<Option<Box<[u8; PAGE_SIZE]>>>` is abstracted by a total byte
map `bytes : Nat → Nat`: an unallocated (`None`) page reads as zero in the
source, and allocating a page fills it with zeros before any byte is
stored, so the map records exactly the observable cell contents. -/

def PAGE_SIZE : Nat := 0x1000

def PAGE_SHIFT : Nat := 12

def PAGE_MASK : Nat := PAGE_SIZE - 1

def EXPANSION_CHUNK_SIZE : Nat := 0x100000

structure MemoryStream where
  bytes : Nat → Nat
  offset : Nat
  size : Nat
  physical_max_memory_size : Nat
  swap_size : Nat

namespace MemoryStream

def logical_max_memory_size (s : MemoryStream) : Nat :=
  s.physical_max_memory_size + s.swap_size

/-- Length of the `pages` vector fixed at construction time:
`(logical_max + PAGE_SIZE - 1) >> PAGE_SHIFT` (0 when `logical_max = 0`). -/
def pagesLen (s : MemoryStream) : Nat :=
  if s.logical_max_memory_size = 0 then 0
  else (s.logical_max_memory_size + PAGE_SIZE - 1) >>> PAGE_SHIFT

def new (size physical_max_memory_size swap_size : Nat) : MemoryStream :=
  { bytes := fun _ => 0
    offset := 0
    size := min size (physical_max_memory_size + swap_size)
    physical_max_memory_size := physical_max_memory_size
    swap_size := swap_size }

/-- `ensure_capacity` grows `size` in `EXPANSION_CHUNK_SIZE` increments,
clamped to the logical maximum; it leaves the stream unchanged when the
offset is already covered or can never be covered. -/
def ensure_capacity (s : MemoryStream) (required_offset : Nat) : MemoryStream :=
  if required_offset < s.size then s
  else if s.logical_max_memory_size ≤ required_offset then s
  else { s with
    size := min s.logical_max_memory_size
      ((required_offset + 1 + EXPANSION_CHUNK_SIZE - 1) / EXPANSION_CHUNK_SIZE
        * EXPANSION_CHUNK_SIZE) }

/-- The boolean result of `ensure_capacity`. -/
def ensure_capacity_ok (s : MemoryStream) (required_offset : Nat) : Bool :=
  decide (required_offset < s.size) ||
    decide (required_offset < s.logical_max_memory_size)

def set_offset (s : MemoryStream) (new_offset : Nat) : MemoryStream × Bool :=
  if s.logical_max_memory_size ≤ new_offset then (s, false)
  else if s.size ≤ new_offset then
    ({ s.ensure_capacity new_offset with offset := new_offset }, true)
  else
    ({ s with offset := new_offset }, true)

/-- One `while dst < out.len()` pass of `read_slice_at`, with an explicit
fuel argument; each iteration consumes `chunk ≥ 1` of the remaining
length, so `fuel = n` suffices. -/
def read_slice_go (s : MemoryStream) : Nat → Nat → Nat → List Nat
  | 0, _, _ => []
  | fuel + 1, addr, n =>
    if n = 0 then []
    else
      let page_index := addr >>> PAGE_SHIFT
      let page_off := addr &&& PAGE_MASK
      let chunk := min n (PAGE_SIZE - page_off)
      let part :=
        if page_index < s.pagesLen ∧ addr < s.size then
          (List.range chunk).map fun i => s.bytes (addr + i)
        else List.replicate chunk 0
      part ++ read_slice_go s fuel (addr + chunk) (n - chunk)

def read_slice_at (s : MemoryStream) (address n : Nat) : List Nat :=
  read_slice_go s n address n

/-- One `while addr < last` pass of `write_slice_at`, with an explicit
fuel argument; the loop breaks when the page index runs off the end of
the page table. -/
def write_slice_go (s : MemoryStream) :
    Nat → Nat → Nat → Nat → List Nat → MemoryStream
  | 0, _, _, _, _ => s
  | fuel + 1, addr, src, last, data =>
    if last ≤ addr then s
    else
      let page_index := addr >>> PAGE_SHIFT
      if s.pagesLen ≤ page_index then s
      else
        let page_off := addr &&& PAGE_MASK
        let chunk := min (last - addr) (PAGE_SIZE - page_off)
        let newBytes : Nat → Nat := fun p =>
          if addr ≤ p ∧ p < addr + chunk then data.getD (src + (p - addr)) 0
          else s.bytes p
        write_slice_go { s with bytes := newBytes } fuel (addr + chunk)
          (src + chunk) last data

def write_slice_at (s : MemoryStream) (address : Nat) (data : List Nat) :
    MemoryStream :=
  if data.length = 0 then s
  else if s.logical_max_memory_size ≤ address then s
  else
    let write_len := min data.length (s.logical_max_memory_size - address)
    if write_len = 0 then s
    else
      let e := address + write_len
      let s1 := if s.size ≤ e then s.ensure_capacity e else s
      write_slice_go s1 write_len address 0 (address + write_len) data

/-- Cursor-based `write`: clamp to the logical maximum, grow capacity to
the end of the written range, store through `write_slice_at`, and advance
the cursor by the clamped length. -/
def write (s : MemoryStream) (value : List Nat) : MemoryStream :=
  if value.length = 0 then s
  else if s.logical_max_memory_size ≤ s.offset then s
  else
    let write_len := min value.length (s.logical_max_memory_size - s.offset)
    let end_offset := s.offset + write_len
    let s1 := if s.size ≤ end_offset then s.ensure_capacity end_offset else s
    let s2 := s1.write_slice_at s.offset (value.take write_len)
    { s2 with offset := s.offset + write_len }

/-- Cursor-based `read`: the prefix available below `size` comes from
`read_slice_at`, the rest of the requested length is zero-filled, and the
cursor advances by the full requested length. -/
def read (s : MemoryStream) (length : Nat) : List Nat × MemoryStream :=
  if length = 0 then ([], s)
  else
    let end_offset := s.offset + length
    let s1 := if s.size < end_offset then s.ensure_capacity end_offset else s
    let available := s1.size - s.offset
    let actual_len := min length available
    let part := if 0 < actual_len then s1.read_slice_at s.offset actual_len else []
    (part ++ List.replicate (length - actual_len) 0,
      { s1 with offset := s.offset + length })

/-- The back-to-front chunk loop of `copy_internal`, used when the
destination range lies after and overlaps the source range. -/
def copy_backward_go (s : MemoryStream) :
    Nat → Nat → Nat → Nat → MemoryStream
  | 0, _, _, _ => s
  | fuel + 1, src_offset, dest_offset, remaining =>
    if remaining = 0 then s
    else
      let chunk := min 65536 remaining
      let start := remaining - chunk
      let buffer := s.read_slice_at (src_offset + start) chunk
      let s2 := s.write_slice_at (dest_offset + start) buffer
      copy_backward_go s2 fuel src_offset dest_offset (remaining - chunk)

/-- The front-to-back chunk loop of `copy_internal`. -/
def copy_forward_go (s : MemoryStream) :
    Nat → Nat → Nat → Nat → Nat → MemoryStream
  | 0, _, _, _, _ => s
  | fuel + 1, src_offset, dest_offset, max_size, offset =>
    if max_size ≤ offset then s
    else
      let chunk := min 65536 (max_size - offset)
      let buffer := s.read_slice_at (src_offset + offset) chunk
      let s2 := s.write_slice_at (dest_offset + offset) buffer
      copy_forward_go s2 fuel src_offset dest_offset max_size (offset + chunk)

def copy_internal (s : MemoryStream) (src_offset dest_offset size : Nat) :
    MemoryStream :=
  if size = 0 then s
  else if s.logical_max_memory_size ≤ src_offset ∨
      s.logical_max_memory_size ≤ dest_offset then s
  else
    let logical_max := s.logical_max_memory_size
    let max_size :=
      min size (min (logical_max - src_offset) (logical_max - dest_offset))
    if max_size = 0 ∨ src_offset = dest_offset then s
    else
      let s1 := s.ensure_capacity (src_offset + max_size)
      let s2 := s1.ensure_capacity (dest_offset + max_size)
      if src_offset < dest_offset ∧ dest_offset < src_offset + max_size then
        copy_backward_go s2 max_size src_offset dest_offset max_size
      else
        copy_forward_go s2 max_size src_offset dest_offset max_size 0

end MemoryStream

/-- A concrete hidden-byte-free stream used as the C8 witness state:
bytes 11..15 stored below `size = 5`, zeros above, in a 10-byte logical
space. -/
def c8WitnessStream : MemoryStream :=
  { bytes := fun p => if p < 5 then p + 11 else 0
    offset := 0
    size := 5
    physical_max_memory_size := 10
    swap_size := 0 }

/-!
Helper lemmas: bit-pattern arithmetic and read-after-write laws for the
byte-level physical memory primitives.
-/

lemma hex_ff : (0xFF : Nat) = 2 ^ 8 - 1 := by norm_num

lemma and_ff (x : Nat) : x &&& 0xFF = x % 2 ^ 8 := by
  rw [hex_ff, Nat.and_pow_two_sub_one_eq_mod]

lemma and_ffffffff (x : Nat) : x &&& 0xFFFFFFFF = x % 2 ^ 32 := by
  have h : (0xFFFFFFFF : Nat) = 2 ^ 32 - 1 := by norm_num
  rw [h, Nat.and_pow_two_sub_one_eq_mod]

lemma or_add_lo (a : Nat) (i : Nat) (b : Nat) (hb : b < 2 ^ i) :
    a * 2 ^ i ||| b = a * 2 ^ i + b := by
  rw [Nat.mul_comm a (2 ^ i)]
  exact (Nat.mul_add_lt_is_or hb a).symm

/-- Recombining the four little-endian bytes of a value gives its low 32
bits. -/
lemma le_bytes_recombine32 (v : Nat) :
    (v &&& 0xFF) ||| ((v >>> 8) &&& 0xFF) <<< 8 |||
      ((v >>> 16) &&& 0xFF) <<< 16 ||| ((v >>> 24) &&& 0xFF) <<< 24 =
      v &&& 0xFFFFFFFF := by
  rw [and_ffffffff]
  simp only [and_ff, Nat.shiftRight_eq_div_pow, Nat.shiftLeft_eq]
  rw [Nat.or_comm (v % 2 ^ 8) _, or_add_lo _ 8 _ (by omega)]
  rw [Nat.or_comm _ (v / 2 ^ 16 % 2 ^ 8 * 2 ^ 16), or_add_lo _ 16 _ (by omega)]
  rw [Nat.or_comm _ (v / 2 ^ 24 % 2 ^ 8 * 2 ^ 24), or_add_lo _ 24 _ (by omega)]
  omega

/-- Recombining the two little-endian 32-bit halves of a value gives its
low 64 bits. -/
lemma le_halves_recombine64 (v : Nat) :
    (v &&& 0xFFFFFFFF) ||| ((v >>> 32) &&& 0xFFFFFFFF) <<< 32 =
      v &&& 0xFFFFFFFFFFFFFFFF := by
  have h : (0xFFFFFFFFFFFFFFFF : Nat) = 2 ^ 64 - 1 := by norm_num
  rw [h, Nat.and_pow_two_sub_one_eq_mod]
  simp only [and_ffffffff, Nat.shiftRight_eq_div_pow, Nat.shiftLeft_eq]
  rw [Nat.or_comm, or_add_lo _ 32 _ (by omega)]
  omega

lemma and_mask32_of_lt {x : Nat} (h : x < 2 ^ 32) : x &&& 0xFFFFFFFF = x := by
  rw [and_ffffffff]
  exact Nat.mod_eq_of_lt h

lemma and_mask64_of_lt {x : Nat} (h : x < 2 ^ 64) :
    x &&& 0xFFFFFFFFFFFFFFFF = x := by
  have he : (0xFFFFFFFFFFFFFFFF : Nat) = 2 ^ 64 - 1 := by norm_num
  rw [he, Nat.and_pow_two_sub_one_eq_mod]
  exact Nat.mod_eq_of_lt h

namespace MemoryAccessor

lemma read_from_memory_write_to_memory (s : MemoryAccessor) (a v x : Nat) :
    (s.write_to_memory a v).read_from_memory x =
      if x = a then v &&& 0xFF else s.read_from_memory x := by
  unfold write_to_memory read_from_memory updFn
  dsimp only
  split <;> rfl

lemma read_from_memory_write_physical_32_ne (s : MemoryAccessor) (a v x : Nat)
    (h : x < a ∨ a + 3 < x) :
    (s.write_physical_32 a v).read_from_memory x = s.read_from_memory x := by
  unfold write_physical_32
  rw [read_from_memory_write_to_memory, if_neg (by omega),
    read_from_memory_write_to_memory, if_neg (by omega),
    read_from_memory_write_to_memory, if_neg (by omega),
    read_from_memory_write_to_memory, if_neg (by omega)]

lemma read_physical_32_write_physical_32_ne (s : MemoryAccessor) (a v b : Nat)
    (h : b + 4 ≤ a ∨ a + 4 ≤ b) :
    (s.write_physical_32 a v).read_physical_32 b = s.read_physical_32 b := by
  unfold read_physical_32
  rw [read_from_memory_write_physical_32_ne _ _ _ _ (by omega),
    read_from_memory_write_physical_32_ne _ _ _ _ (by omega),
    read_from_memory_write_physical_32_ne _ _ _ _ (by omega),
    read_from_memory_write_physical_32_ne _ _ _ _ (by omega)]

lemma and_ff_and_ff (x : Nat) : (x &&& 0xFF) &&& 0xFF = x &&& 0xFF := by
  rw [Nat.and_assoc]
  simp

lemma read_physical_32_write_physical_32_self (s : MemoryAccessor) (a v : Nat) :
    (s.write_physical_32 a v).read_physical_32 a = v &&& 0xFFFFFFFF := by
  unfold read_physical_32 write_physical_32
  rw [read_from_memory_write_to_memory, if_neg (by omega),
    read_from_memory_write_to_memory, if_neg (by omega),
    read_from_memory_write_to_memory, if_neg (by omega),
    read_from_memory_write_to_memory, if_pos rfl]
  rw [read_from_memory_write_to_memory, if_neg (by omega),
    read_from_memory_write_to_memory, if_neg (by omega),
    read_from_memory_write_to_memory, if_pos rfl]
  rw [read_from_memory_write_to_memory, if_neg (by omega),
    read_from_memory_write_to_memory, if_pos rfl]
  rw [read_from_memory_write_to_memory, if_pos rfl]
  rw [and_ff_and_ff, and_ff_and_ff, and_ff_and_ff, and_ff_and_ff]
  exact le_bytes_recombine32 v

lemma read_physical_64_write_physical_64_ne (s : MemoryAccessor) (a v b : Nat)
    (h : b + 8 ≤ a ∨ a + 8 ≤ b) :
    (s.write_physical_64 a v).read_physical_64 b = s.read_physical_64 b := by
  unfold read_physical_64 write_physical_64
  rw [read_physical_32_write_physical_32_ne _ _ _ _ (by omega),
    read_physical_32_write_physical_32_ne _ _ _ _ (by omega),
    read_physical_32_write_physical_32_ne _ _ _ _ (by omega),
    read_physical_32_write_physical_32_ne _ _ _ _ (by omega)]

lemma read_physical_64_write_physical_64_self (s : MemoryAccessor) (a v : Nat) :
    (s.write_physical_64 a v).read_physical_64 a = v &&& 0xFFFFFFFFFFFFFFFF := by
  unfold read_physical_64 write_physical_64
  rw [read_physical_32_write_physical_32_ne _ _ _ _ (Or.inl (by omega))]
  rw [read_physical_32_write_physical_32_self]
  rw [read_physical_32_write_physical_32_self]
  rw [Nat.and_assoc]
  rw [Nat.and_assoc]
  rw [(by simp : (0xFFFFFFFF : Nat) &&& 0xFFFFFFFF = 0xFFFFFFFF)]
  exact le_halves_recombine64 v

lemma read_from_memory_lt (s : MemoryAccessor) (a : Nat) :
    s.read_from_memory a < 2 ^ 8 := by
  unfold read_from_memory
  rw [and_ff]
  exact Nat.mod_lt _ (by norm_num)

lemma read_physical_32_lt (s : MemoryAccessor) (a : Nat) :
    s.read_physical_32 a < 2 ^ 32 := by
  unfold read_physical_32
  have h0 := s.read_from_memory_lt a
  have h1 := s.read_from_memory_lt (a + 1)
  have h2 := s.read_from_memory_lt (a + 2)
  have h3 := s.read_from_memory_lt (a + 3)
  refine Nat.or_lt_two_pow (Nat.or_lt_two_pow (Nat.or_lt_two_pow ?_ ?_) ?_) ?_ <;>
    (try simp only [Nat.shiftLeft_eq]) <;> omega

lemma read_physical_64_lt (s : MemoryAccessor) (a : Nat) :
    s.read_physical_64 a < 2 ^ 64 := by
  unfold read_physical_64
  have h0 := s.read_physical_32_lt a
  have h1 := s.read_physical_32_lt (a + 4)
  refine Nat.or_lt_two_pow (by omega) ?_
  rw [Nat.shiftLeft_eq]
  omega

end MemoryAccessor

namespace MemoryAccessor

/-- C4.  Whenever `translate_linear` returns a nonzero error code, control
register slot 2 (CR2) afterwards equals the mask-applied faulting linear
address, canonicalized: if CR4 bit 5 (PAE) and EFER bit 8 (LME) are both
set, the address is sign-extended from bit 47 (bits 63:48 forced to 1
when bit 47 is 1); otherwise it is truncated to 32 bits. -/
theorem c4_cr2_populated_on_fault (s : MemoryAccessor) (linear : Nat)
    (w u p : Bool) (mask : Nat)
    (h : (s.translate_linear linear w u p mask).2.2 ≠ 0) :
    (s.translate_linear linear w u p mask).1.control_registers 2 =
      (if (s.control_registers 4 &&& (1 <<< 5) ≠ 0) ∧ (s.efer &&& (1 <<< 8) ≠ 0) then
        (if (linear &&& mask) &&& (1 <<< 47) ≠ 0 then
          (linear &&& mask) ||| 0xFFFF000000000000
         else linear &&& mask)
       else (linear &&& mask) &&& 0xFFFFFFFF) := by
  revert h
  unfold translate_linear
  lift_lets
  extract_lets lin cr4 pse pae lme res sw physical err cr2
  intro h
  by_cases hp : p = true
  · rw [if_neg (by simp [hp])] at *
    by_cases he : err ≠ 0
    · rw [if_pos he] at *
      show cr2 = _
      show (if pae ∧ lme then
              if lin &&& (1 <<< 47) ≠ 0 then lin ||| 0xFFFF000000000000 else lin
            else lin &&& 0xFFFFFFFF) = _
      have hpae : (pae = true) ↔ (s.control_registers 4 &&& (1 <<< 5) ≠ 0) := by
        show ((s.control_registers 4 &&& (1 <<< 5) != 0) = true) ↔ _
        simp [bne_iff_ne]
      have hlme : (lme = true) ↔ (s.efer &&& (1 <<< 8) ≠ 0) := by
        show ((s.efer &&& (1 <<< 8) != 0) = true) ↔ _
        simp [bne_iff_ne]
      by_cases h1 : (s.control_registers 4 &&& (1 <<< 5) ≠ 0) ∧ (s.efer &&& (1 <<< 8) ≠ 0)
      · rw [if_pos h1, if_pos (by rcases h1 with ⟨a, b⟩; exact ⟨hpae.mpr a, hlme.mpr b⟩)]
      · rw [if_neg h1, if_neg (by rw [hpae, hlme] at *; exact h1)]
    · rw [if_neg he] at *
      push_neg at he
      exact absurd he h
  · rw [if_pos (by simp [hp])] at h
    exact absurd rfl h

/-- Witness for C4: a concrete not-present fault in the legacy walk at
linear 0x400000 records CR2 = 0x400000 (the 32-bit truncated address). -/
theorem c4_cr2_populated_on_fault_witness :
    (demoLegacy.translate_linear 0x400000 true false true 0xFFFFFFFF).2.2 ≠ 0 ∧
    (demoLegacy.translate_linear 0x400000 true false true 0xFFFFFFFF).1.control_registers 2 =
      (if (demoLegacy.control_registers 4 &&& (1 <<< 5) ≠ 0) ∧
          (demoLegacy.efer &&& (1 <<< 8) ≠ 0) then
        (if (0x400000 &&& 0xFFFFFFFF) &&& (1 <<< 47) ≠ 0 then
          (0x400000 &&& 0xFFFFFFFF) ||| 0xFFFF000000000000
         else 0x400000 &&& 0xFFFFFFFF)
       else (0x400000 &&& 0xFFFFFFFF) &&& 0xFFFFFFFF) :=
  ⟨by decide, c4_cr2_populated_on_fault demoLegacy 0x400000 true false true
    0xFFFFFFFF (by decide)⟩

end MemoryAccessor

namespace MemoryAccessor

/-- Fault characterization at the directory level of the legacy walk. -/
lemma legacy_pde_level (s : MemoryAccessor) (l : Nat) (w u pse : Bool)
    (pde_addr pde : Nat)
    (ha : pde_addr = ((s.control_registers 3 &&& 0xFFFFF000) +
      ((l >>> 22) &&& 0x3FF) * 4) &&& 0xFFFFFFFF)
    (hpde : pde = s.read_physical_32 pde_addr) :
    (pde &&& 0x1 = 0 →
      (s.translate_linear_32 l w u pse).2.2 = (0x0E <<< 16) |||
        ((if w then 0b10 else 0) ||| (if u then 0b100 else 0))) ∧
    (pde &&& 0x1 ≠ 0 → pde &&& 0xFFFFFF000 = 0 →
      (s.translate_linear_32 l w u pse).2.2 = (0x0E <<< 16) |||
        (0x08 ||| (if s.instruction_fetch then 0x10 else 0))) ∧
    (pde &&& 0x1 ≠ 0 → pde &&& 0xFFFFFF000 ≠ 0 → u = true → pde &&& 0x4 = 0 →
      (s.translate_linear_32 l w u pse).2.2 = (0x0E <<< 16) |||
        ((if w then 0b10 else 0) ||| 0b100 ||| 0b1)) ∧
    (pde &&& 0x1 ≠ 0 → pde &&& 0xFFFFFF000 ≠ 0 → ¬(u = true ∧ pde &&& 0x4 = 0) →
      w = true → pde &&& 0x2 = 0 →
      (s.translate_linear_32 l w u pse).2.2 = (0x0E <<< 16) |||
        (0b10 ||| (if u then 0b100 else 0) ||| 0b1)) := by
  subst hpde ha
  refine ⟨fun h1 => ?_, fun h1 h2 => ?_, fun h1 h2 hu h3 => ?_,
    fun h1 h2 h3 hw h4 => ?_⟩ <;>
    (unfold translate_linear_32; dsimp only)
  · rw [if_pos h1]
  · rw [if_neg h1, if_pos h2]
  · rw [if_neg h1, if_neg h2, if_pos ⟨hu, h3⟩]
  · rw [if_neg h1, if_neg h2, if_neg h3, if_pos ⟨hw, h4⟩]

/-- Fault characterization at the table level of the legacy walk. -/
lemma legacy_pte_level (s : MemoryAccessor) (l : Nat) (w u pse : Bool)
    (pde_addr pde pte_addr pte : Nat)
    (ha : pde_addr = ((s.control_registers 3 &&& 0xFFFFF000) +
      ((l >>> 22) &&& 0x3FF) * 4) &&& 0xFFFFFFFF)
    (hpde : pde = s.read_physical_32 pde_addr)
    (h1 : pde &&& 0x1 ≠ 0) (h2 : pde &&& 0xFFFFFF000 ≠ 0)
    (h3 : ¬(u = true ∧ pde &&& 0x4 = 0)) (h4 : ¬(w = true ∧ pde &&& 0x2 = 0))
    (h5 : ¬(pse = true ∧ pde &&& (1 <<< 7) ≠ 0))
    (hb : pte_addr = ((pde &&& 0xFFFFF000) + ((l >>> 12) &&& 0x3FF) * 4) &&&
      0xFFFFFFFF)
    (hpte : pte = s.read_physical_32 pte_addr) :
    (pte &&& 0x1 = 0 →
      (s.translate_linear_32 l w u pse).2.2 = (0x0E <<< 16) |||
        ((if w then 0b10 else 0) ||| (if u then 0b100 else 0))) ∧
    (pte &&& 0x1 ≠ 0 → pte &&& 0xFFFFFF000 = 0 →
      (s.translate_linear_32 l w u pse).2.2 = (0x0E <<< 16) |||
        (0x08 ||| (if s.instruction_fetch then 0x10 else 0))) ∧
    (pte &&& 0x1 ≠ 0 → pte &&& 0xFFFFFF000 ≠ 0 → u = true → pte &&& 0x4 = 0 →
      (s.translate_linear_32 l w u pse).2.2 = (0x0E <<< 16) |||
        ((if w then 0b10 else 0) ||| 0b100 ||| 0b1)) ∧
    (pte &&& 0x1 ≠ 0 → pte &&& 0xFFFFFF000 ≠ 0 → ¬(u = true ∧ pte &&& 0x4 = 0) →
      w = true → pte &&& 0x2 = 0 →
      (s.translate_linear_32 l w u pse).2.2 = (0x0E <<< 16) |||
        (0b10 ||| (if u then 0b100 else 0) ||| 0b1)) := by
  subst hpte hb hpde ha
  refine ⟨fun g1 => ?_, fun g1 g2 => ?_, fun g1 g2 hu g3 => ?_,
    fun g1 g2 g3 hw g4 => ?_⟩ <;>
    (unfold translate_linear_32; dsimp only;
     rw [if_neg h1, if_neg h2, if_neg h3, if_neg h4, if_neg h5])
  · rw [if_pos g1]
  · rw [if_neg g1, if_pos g2]
  · rw [if_neg g1, if_neg g2, if_pos ⟨hu, g3⟩]
  · rw [if_neg g1, if_neg g2, if_neg g3, if_pos ⟨hw, g4⟩]

end MemoryAccessor
namespace MemoryAccessor

/-- Fault characterization at the PDPTE level of the PAE walk. -/
lemma pae_pdpte_level (s : MemoryAccessor) (l : Nat) (w u : Bool)
    (pdpte_addr pdpte : Nat)
    (ha : pdpte_addr = ((s.control_registers 3 &&& 0xFFFFF000) +
      ((l >>> 30) &&& 0x3) * 8) &&& 0xFFFFFFFF)
    (hp : pdpte = s.read_physical_64 pdpte_addr) :
    (pdpte &&& 0x1 = 0 →
      (s.translate_linear_pae l w u).2.2 = (0x0E <<< 16) |||
        ((if w then 0b10 else 0) ||| (if u then 0b100 else 0))) ∧
    (pdpte &&& 0x1 ≠ 0 → u = true → pdpte &&& 0x4 = 0 →
      (s.translate_linear_pae l w u).2.2 = (0x0E <<< 16) |||
        ((if w then 0b10 else 0) ||| 0b100 ||| 0b1)) ∧
    (pdpte &&& 0x1 ≠ 0 → ¬(u = true ∧ pdpte &&& 0x4 = 0) →
      w = true → pdpte &&& 0x2 = 0 →
      (s.translate_linear_pae l w u).2.2 = (0x0E <<< 16) |||
        (0b10 ||| (if u then 0b100 else 0) ||| 0b1)) := by
  subst hp ha
  refine ⟨fun h1 => ?_, fun h1 hu h2 => ?_, fun h1 h2 hw h3 => ?_⟩ <;>
    (unfold translate_linear_pae; dsimp only)
  · rw [if_pos h1]
  · rw [if_neg h1, if_pos ⟨hu, h2⟩]
  · rw [if_neg h1, if_neg h2, if_pos ⟨hw, h3⟩]

/-- Fault characterization at the directory level of the PAE walk. -/
lemma pae_pde_level (s s1 : MemoryAccessor) (l : Nat) (w u : Bool)
    (pdpte_addr pdpte pde_addr pde : Nat)
    (ha : pdpte_addr = ((s.control_registers 3 &&& 0xFFFFF000) +
      ((l >>> 30) &&& 0x3) * 8) &&& 0xFFFFFFFF)
    (hp : pdpte = s.read_physical_64 pdpte_addr)
    (h1 : pdpte &&& 0x1 ≠ 0) (h2 : ¬(u = true ∧ pdpte &&& 0x4 = 0))
    (h3 : ¬(w = true ∧ pdpte &&& 0x2 = 0))
    (hs1 : s1 = s.write_physical_64 pdpte_addr (pdpte ||| (1 <<< 5)))
    (hb : pde_addr = ((pdpte &&& 0xFFFFFF000) + ((l >>> 21) &&& 0x1FF) * 8) &&&
      0xFFFFFFFF)
    (hpde : pde = s1.read_physical_64 pde_addr) :
    (pde &&& 0x1 = 0 →
      (s.translate_linear_pae l w u).2.2 = (0x0E <<< 16) |||
        ((if w then 0b10 else 0) ||| (if u then 0b100 else 0))) ∧
    (pde &&& 0x1 ≠ 0 → u = true → pde &&& 0x4 = 0 →
      (s.translate_linear_pae l w u).2.2 = (0x0E <<< 16) |||
        ((if w then 0b10 else 0) ||| 0b100 ||| 0b1)) ∧
    (pde &&& 0x1 ≠ 0 → ¬(u = true ∧ pde &&& 0x4 = 0) →
      w = true → pde &&& 0x2 = 0 →
      (s.translate_linear_pae l w u).2.2 = (0x0E <<< 16) |||
        (0b10 ||| (if u then 0b100 else 0) ||| 0b1)) := by
  subst hpde hb hs1 hp ha
  refine ⟨fun g1 => ?_, fun g1 hu g2 => ?_, fun g1 g2 hw g3 => ?_⟩ <;>
    (unfold translate_linear_pae; dsimp only;
     rw [if_neg h1, if_neg h2, if_neg h3])
  · rw [if_pos g1]
  · rw [if_neg g1, if_pos ⟨hu, g2⟩]
  · rw [if_neg g1, if_neg g2, if_pos ⟨hw, g3⟩]

/-- Fault characterization at the table level of the PAE walk. -/
lemma pae_pte_level (s s1 : MemoryAccessor) (l : Nat) (w u : Bool)
    (pdpte_addr pdpte pde_addr pde pte_addr pte : Nat)
    (ha : pdpte_addr = ((s.control_registers 3 &&& 0xFFFFF000) +
      ((l >>> 30) &&& 0x3) * 8) &&& 0xFFFFFFFF)
    (hp : pdpte = s.read_physical_64 pdpte_addr)
    (h1 : pdpte &&& 0x1 ≠ 0) (h2 : ¬(u = true ∧ pdpte &&& 0x4 = 0))
    (h3 : ¬(w = true ∧ pdpte &&& 0x2 = 0))
    (hs1 : s1 = s.write_physical_64 pdpte_addr (pdpte ||| (1 <<< 5)))
    (hb : pde_addr = ((pdpte &&& 0xFFFFFF000) + ((l >>> 21) &&& 0x1FF) * 8) &&&
      0xFFFFFFFF)
    (hpde : pde = s1.read_physical_64 pde_addr)
    (h4 : pde &&& 0x1 ≠ 0) (h5 : ¬(u = true ∧ pde &&& 0x4 = 0))
    (h6 : ¬(w = true ∧ pde &&& 0x2 = 0)) (h7 : pde &&& (1 <<< 7) = 0)
    (hc : pte_addr = ((pde &&& 0xFFFFFF000) + ((l >>> 12) &&& 0x1FF) * 8) &&&
      0xFFFFFFFF)
    (hpte : pte = s1.read_physical_64 pte_addr) :
    (pte &&& 0x1 = 0 →
      (s.translate_linear_pae l w u).2.2 = (0x0E <<< 16) |||
        ((if w then 0b10 else 0) ||| (if u then 0b100 else 0))) ∧
    (pte &&& 0x1 ≠ 0 → u = true → pte &&& 0x4 = 0 →
      (s.translate_linear_pae l w u).2.2 = (0x0E <<< 16) |||
        ((if w then 0b10 else 0) ||| 0b100 ||| 0b1)) ∧
    (pte &&& 0x1 ≠ 0 → ¬(u = true ∧ pte &&& 0x4 = 0) →
      w = true → pte &&& 0x2 = 0 →
      (s.translate_linear_pae l w u).2.2 = (0x0E <<< 16) |||
        (0b10 ||| (if u then 0b100 else 0) ||| 0b1)) := by
  subst hpte hc hpde hb hs1 hp ha
  refine ⟨fun g1 => ?_, fun g1 hu g2 => ?_, fun g1 g2 hw g3 => ?_⟩ <;>
    (unfold translate_linear_pae; dsimp only;
     rw [if_neg h1, if_neg h2, if_neg h3, if_neg h4, if_neg h5, if_neg h6,
       if_neg (not_not_intro h7)])
  · rw [if_pos g1]
  · rw [if_neg g1, if_pos ⟨hu, g2⟩]
  · rw [if_neg g1, if_neg g2, if_pos ⟨hw, g3⟩]

end MemoryAccessor
namespace MemoryAccessor

/-- Fault characterization at the PML4E level of the IA-32e walk. -/
lemma ia32e_pml4e_level (s : MemoryAccessor) (l : Nat) (w u : Bool)
    (pml4e_addr pml4e : Nat)
    (ha : pml4e_addr = ((s.control_registers 3 &&& 0xFFFFF000) +
      ((l >>> 39) &&& 0x1FF) * 8) &&& 0xFFFFFFFF)
    (hp : pml4e = s.read_physical_64 pml4e_addr) :
    (pml4e &&& 0x1 = 0 →
      (s.translate_linear_ia32e l w u).2.2 = (0x0E <<< 16) |||
        ((if w then 0b10 else 0) ||| (if u then 0b100 else 0))) ∧
    (pml4e &&& 0x1 ≠ 0 → u = true → pml4e &&& 0x4 = 0 →
      (s.translate_linear_ia32e l w u).2.2 = (0x0E <<< 16) |||
        ((if w then 0b10 else 0) ||| 0b100 ||| 0b1)) ∧
    (pml4e &&& 0x1 ≠ 0 → ¬(u = true ∧ pml4e &&& 0x4 = 0) →
      w = true → pml4e &&& 0x2 = 0 →
      (s.translate_linear_ia32e l w u).2.2 = (0x0E <<< 16) |||
        (0b10 ||| (if u then 0b100 else 0) ||| 0b1)) := by
  subst hp ha
  refine ⟨fun h1 => ?_, fun h1 hu h2 => ?_, fun h1 h2 hw h3 => ?_⟩ <;>
    (unfold translate_linear_ia32e; dsimp only)
  · rw [if_pos h1]
  · rw [if_neg h1, if_pos ⟨hu, h2⟩]
  · rw [if_neg h1, if_neg h2, if_pos ⟨hw, h3⟩]

/-- Fault characterization at the PDPTE level of the IA-32e walk. -/
lemma ia32e_pdpte_level (s s1 : MemoryAccessor) (l : Nat) (w u : Bool)
    (pml4e_addr pml4e pdpte_addr pdpte : Nat)
    (ha : pml4e_addr = ((s.control_registers 3 &&& 0xFFFFF000) +
      ((l >>> 39) &&& 0x1FF) * 8) &&& 0xFFFFFFFF)
    (hp : pml4e = s.read_physical_64 pml4e_addr)
    (h1 : pml4e &&& 0x1 ≠ 0) (h2 : ¬(u = true ∧ pml4e &&& 0x4 = 0))
    (h3 : ¬(w = true ∧ pml4e &&& 0x2 = 0))
    (hs1 : s1 = s.write_physical_64 pml4e_addr (pml4e ||| (1 <<< 5)))
    (hb : pdpte_addr = ((pml4e &&& 0xFFFFFF000) + ((l >>> 30) &&& 0x1FF) * 8) &&&
      0xFFFFFFFF)
    (hq : pdpte = s1.read_physical_64 pdpte_addr) :
    (pdpte &&& 0x1 = 0 →
      (s.translate_linear_ia32e l w u).2.2 = (0x0E <<< 16) |||
        ((if w then 0b10 else 0) ||| (if u then 0b100 else 0))) ∧
    (pdpte &&& 0x1 ≠ 0 → u = true → pdpte &&& 0x4 = 0 →
      (s.translate_linear_ia32e l w u).2.2 = (0x0E <<< 16) |||
        ((if w then 0b10 else 0) ||| 0b100 ||| 0b1)) ∧
    (pdpte &&& 0x1 ≠ 0 → ¬(u = true ∧ pdpte &&& 0x4 = 0) →
      w = true → pdpte &&& 0x2 = 0 →
      (s.translate_linear_ia32e l w u).2.2 = (0x0E <<< 16) |||
        (0b10 ||| (if u then 0b100 else 0) ||| 0b1)) := by
  subst hq hb hs1 hp ha
  refine ⟨fun g1 => ?_, fun g1 hu g2 => ?_, fun g1 g2 hw g3 => ?_⟩ <;>
    (unfold translate_linear_ia32e; dsimp only;
     rw [if_neg h1, if_neg h2, if_neg h3])
  · rw [if_pos g1]
  · rw [if_neg g1, if_pos ⟨hu, g2⟩]
  · rw [if_neg g1, if_neg g2, if_pos ⟨hw, g3⟩]

/-- Fault characterization at the directory level of the IA-32e walk. -/
lemma ia32e_pde_level (s s1 s2 : MemoryAccessor) (l : Nat) (w u : Bool)
    (pml4e_addr pml4e pdpte_addr pdpte pde_addr pde : Nat)
    (ha : pml4e_addr = ((s.control_registers 3 &&& 0xFFFFF000) +
      ((l >>> 39) &&& 0x1FF) * 8) &&& 0xFFFFFFFF)
    (hp : pml4e = s.read_physical_64 pml4e_addr)
    (h1 : pml4e &&& 0x1 ≠ 0) (h2 : ¬(u = true ∧ pml4e &&& 0x4 = 0))
    (h3 : ¬(w = true ∧ pml4e &&& 0x2 = 0))
    (hs1 : s1 = s.write_physical_64 pml4e_addr (pml4e ||| (1 <<< 5)))
    (hb : pdpte_addr = ((pml4e &&& 0xFFFFFF000) + ((l >>> 30) &&& 0x1FF) * 8) &&&
      0xFFFFFFFF)
    (hq : pdpte = s1.read_physical_64 pdpte_addr)
    (h4 : pdpte &&& 0x1 ≠ 0) (h5 : ¬(u = true ∧ pdpte &&& 0x4 = 0))
    (h6 : ¬(w = true ∧ pdpte &&& 0x2 = 0))
    (hs2 : s2 = s1.write_physical_64 pdpte_addr (pdpte ||| (1 <<< 5)))
    (h7 : pdpte &&& (1 <<< 7) = 0)
    (hc : pde_addr = ((pdpte &&& 0xFFFFFF000) + ((l >>> 21) &&& 0x1FF) * 8) &&&
      0xFFFFFFFF)
    (hr : pde = s2.read_physical_64 pde_addr) :
    (pde &&& 0x1 = 0 →
      (s.translate_linear_ia32e l w u).2.2 = (0x0E <<< 16) |||
        ((if w then 0b10 else 0) ||| (if u then 0b100 else 0))) ∧
    (pde &&& 0x1 ≠ 0 → u = true → pde &&& 0x4 = 0 →
      (s.translate_linear_ia32e l w u).2.2 = (0x0E <<< 16) |||
        ((if w then 0b10 else 0) ||| 0b100 ||| 0b1)) ∧
    (pde &&& 0x1 ≠ 0 → ¬(u = true ∧ pde &&& 0x4 = 0) →
      w = true → pde &&& 0x2 = 0 →
      (s.translate_linear_ia32e l w u).2.2 = (0x0E <<< 16) |||
        (0b10 ||| (if u then 0b100 else 0) ||| 0b1)) := by
  subst hr hc hs2 hq hb hs1 hp ha
  refine ⟨fun g1 => ?_, fun g1 hu g2 => ?_, fun g1 g2 hw g3 => ?_⟩ <;>
    (unfold translate_linear_ia32e; dsimp only;
     rw [if_neg h1, if_neg h2, if_neg h3, if_neg h4, if_neg h5, if_neg h6,
       if_neg (not_not_intro h7)])
  · rw [if_pos g1]
  · rw [if_neg g1, if_pos ⟨hu, g2⟩]
  · rw [if_neg g1, if_neg g2, if_pos ⟨hw, g3⟩]

/-- Fault characterization at the table level of the IA-32e walk. -/
lemma ia32e_pte_level (s s1 s2 : MemoryAccessor) (l : Nat) (w u : Bool)
    (pml4e_addr pml4e pdpte_addr pdpte pde_addr pde pte_addr pte : Nat)
    (ha : pml4e_addr = ((s.control_registers 3 &&& 0xFFFFF000) +
      ((l >>> 39) &&& 0x1FF) * 8) &&& 0xFFFFFFFF)
    (hp : pml4e = s.read_physical_64 pml4e_addr)
    (h1 : pml4e &&& 0x1 ≠ 0) (h2 : ¬(u = true ∧ pml4e &&& 0x4 = 0))
    (h3 : ¬(w = true ∧ pml4e &&& 0x2 = 0))
    (hs1 : s1 = s.write_physical_64 pml4e_addr (pml4e ||| (1 <<< 5)))
    (hb : pdpte_addr = ((pml4e &&& 0xFFFFFF000) + ((l >>> 30) &&& 0x1FF) * 8) &&&
      0xFFFFFFFF)
    (hq : pdpte = s1.read_physical_64 pdpte_addr)
    (h4 : pdpte &&& 0x1 ≠ 0) (h5 : ¬(u = true ∧ pdpte &&& 0x4 = 0))
    (h6 : ¬(w = true ∧ pdpte &&& 0x2 = 0))
    (hs2 : s2 = s1.write_physical_64 pdpte_addr (pdpte ||| (1 <<< 5)))
    (h7 : pdpte &&& (1 <<< 7) = 0)
    (hc : pde_addr = ((pdpte &&& 0xFFFFFF000) + ((l >>> 21) &&& 0x1FF) * 8) &&&
      0xFFFFFFFF)
    (hr : pde = s2.read_physical_64 pde_addr)
    (h8 : pde &&& 0x1 ≠ 0) (h9 : ¬(u = true ∧ pde &&& 0x4 = 0))
    (h10 : ¬(w = true ∧ pde &&& 0x2 = 0)) (h11 : pde &&& (1 <<< 7) = 0)
    (hd : pte_addr = ((pde &&& 0xFFFFFF000) + ((l >>> 12) &&& 0x1FF) * 8) &&&
      0xFFFFFFFF)
    (ht : pte = s2.read_physical_64 pte_addr) :
    (pte &&& 0x1 = 0 →
      (s.translate_linear_ia32e l w u).2.2 = (0x0E <<< 16) |||
        ((if w then 0b10 else 0) ||| (if u then 0b100 else 0))) ∧
    (pte &&& 0x1 ≠ 0 → u = true → pte &&& 0x4 = 0 →
      (s.translate_linear_ia32e l w u).2.2 = (0x0E <<< 16) |||
        ((if w then 0b10 else 0) ||| 0b100 ||| 0b1)) ∧
    (pte &&& 0x1 ≠ 0 → ¬(u = true ∧ pte &&& 0x4 = 0) →
      w = true → pte &&& 0x2 = 0 →
      (s.translate_linear_ia32e l w u).2.2 = (0x0E <<< 16) |||
        (0b10 ||| (if u then 0b100 else 0) ||| 0b1)) := by
  subst ht hd hr hc hs2 hq hb hs1 hp ha
  refine ⟨fun g1 => ?_, fun g1 hu g2 => ?_, fun g1 g2 hw g3 => ?_⟩ <;>
    (unfold translate_linear_ia32e; dsimp only;
     rw [if_neg h1, if_neg h2, if_neg h3, if_neg h4, if_neg h5, if_neg h6,
       if_neg (not_not_intro h7), if_neg h8, if_neg h9, if_neg h10,
       if_neg (not_not_intro h11)])
  · rw [if_pos g1]
  · rw [if_neg g1, if_pos ⟨hu, g2⟩]
  · rw [if_neg g1, if_neg g2, if_pos ⟨hw, g3⟩]

end MemoryAccessor
namespace MemoryAccessor

lemma triple_snd_snd (a : MemoryAccessor) (b c : Nat) :
    ((a, b, c) : MemoryAccessor × Nat × Nat).2.2 = c := rfl

/-- The PAE walk never reports a reserved-bit (bit 3) page-fault error. -/
lemma pae_no_reserved_bit (s : MemoryAccessor) (l : Nat) (w u : Bool) :
    (s.translate_linear_pae l w u).2.2 &&& 0x8 = 0 := by
  unfold translate_linear_pae
  lift_lets
  extract_lets cr3 pdp_index dir_index table_index offset pdpte_addr pdpte s1
    pde_addr pde pde2 s2a base pte_addr pte s2b pte2 s3
  by_cases c1 : pdpte &&& 0x1 = 0
  · rw [if_pos c1]; rw [triple_snd_snd]; cases w <;> cases u <;> decide
  rw [if_neg c1]
  by_cases c2 : u = true ∧ pdpte &&& 0x4 = 0
  · rw [if_pos c2]; rw [triple_snd_snd]; cases w <;> cases u <;> decide
  rw [if_neg c2]
  by_cases c3 : w = true ∧ pdpte &&& 0x2 = 0
  · rw [if_pos c3]; rw [triple_snd_snd]; cases w <;> cases u <;> decide
  rw [if_neg c3]
  by_cases c4 : pde &&& 0x1 = 0
  · rw [if_pos c4]; rw [triple_snd_snd]; cases w <;> cases u <;> decide
  rw [if_neg c4]
  by_cases c5 : u = true ∧ pde &&& 0x4 = 0
  · rw [if_pos c5]; rw [triple_snd_snd]; cases w <;> cases u <;> decide
  rw [if_neg c5]
  by_cases c6 : w = true ∧ pde &&& 0x2 = 0
  · rw [if_pos c6]; rw [triple_snd_snd]; cases w <;> cases u <;> decide
  rw [if_neg c6]
  by_cases c7 : pde &&& (1 <<< 7) ≠ 0
  · rw [if_pos c7, triple_snd_snd]; decide
  rw [if_neg c7]
  by_cases c8 : pte &&& 0x1 = 0
  · rw [if_pos c8]; rw [triple_snd_snd]; cases w <;> cases u <;> decide
  rw [if_neg c8]
  by_cases c9 : u = true ∧ pte &&& 0x4 = 0
  · rw [if_pos c9]; rw [triple_snd_snd]; cases w <;> cases u <;> decide
  rw [if_neg c9]
  by_cases c10 : w = true ∧ pte &&& 0x2 = 0
  · rw [if_pos c10]; rw [triple_snd_snd]; cases w <;> cases u <;> decide
  rw [if_neg c10, triple_snd_snd]
  decide

/-- The IA-32e walk never reports a reserved-bit (bit 3) page-fault
error. -/
lemma ia32e_no_reserved_bit (s : MemoryAccessor) (l : Nat) (w u : Bool) :
    (s.translate_linear_ia32e l w u).2.2 &&& 0x8 = 0 := by
  unfold translate_linear_ia32e
  lift_lets
  extract_lets cr3 pml4_index pdpt_index dir_index table_index offset
    pml4e_addr pml4e s1 pdpte_addr pdpte s2 pdpte2 s3a baseA pde_addr pde pde2
    s3b baseB pte_addr pte s3c pte2 s4
  by_cases c1 : pml4e &&& 0x1 = 0
  · rw [if_pos c1]; rw [triple_snd_snd]; cases w <;> cases u <;> decide
  rw [if_neg c1]
  by_cases c2 : u = true ∧ pml4e &&& 0x4 = 0
  · rw [if_pos c2]; rw [triple_snd_snd]; cases w <;> cases u <;> decide
  rw [if_neg c2]
  by_cases c3 : w = true ∧ pml4e &&& 0x2 = 0
  · rw [if_pos c3]; rw [triple_snd_snd]; cases w <;> cases u <;> decide
  rw [if_neg c3]
  by_cases c4 : pdpte &&& 0x1 = 0
  · rw [if_pos c4]; rw [triple_snd_snd]; cases w <;> cases u <;> decide
  rw [if_neg c4]
  by_cases c5 : u = true ∧ pdpte &&& 0x4 = 0
  · rw [if_pos c5]; rw [triple_snd_snd]; cases w <;> cases u <;> decide
  rw [if_neg c5]
  by_cases c6 : w = true ∧ pdpte &&& 0x2 = 0
  · rw [if_pos c6]; rw [triple_snd_snd]; cases w <;> cases u <;> decide
  rw [if_neg c6]
  by_cases c7 : pdpte &&& (1 <<< 7) ≠ 0
  · rw [if_pos c7, triple_snd_snd]; decide
  rw [if_neg c7]
  by_cases c8 : pde &&& 0x1 = 0
  · rw [if_pos c8]; rw [triple_snd_snd]; cases w <;> cases u <;> decide
  rw [if_neg c8]
  by_cases c9 : u = true ∧ pde &&& 0x4 = 0
  · rw [if_pos c9]; rw [triple_snd_snd]; cases w <;> cases u <;> decide
  rw [if_neg c9]
  by_cases c10 : w = true ∧ pde &&& 0x2 = 0
  · rw [if_pos c10]; rw [triple_snd_snd]; cases w <;> cases u <;> decide
  rw [if_neg c10]
  by_cases c11 : pde &&& (1 <<< 7) ≠ 0
  · rw [if_pos c11, triple_snd_snd]; decide
  rw [if_neg c11]
  by_cases c12 : pte &&& 0x1 = 0
  · rw [if_pos c12]; rw [triple_snd_snd]; cases w <;> cases u <;> decide
  rw [if_neg c12]
  by_cases c13 : u = true ∧ pte &&& 0x4 = 0
  · rw [if_pos c13]; rw [triple_snd_snd]; cases w <;> cases u <;> decide
  rw [if_neg c13]
  by_cases c14 : w = true ∧ pte &&& 0x2 = 0
  · rw [if_pos c14]; rw [triple_snd_snd]; cases w <;> cases u <;> decide
  rw [if_neg c14, triple_snd_snd]
  decide

end MemoryAccessor
namespace MemoryAccessor

lemma triple_fst (a : MemoryAccessor) (b c : Nat) :
    ((a, b, c) : MemoryAccessor × Nat × Nat).1 = a := rfl

/-- Successful 4 KiB legacy translation: error 0, and the PDE and PTE are
written back with accessed (and, for the PTE, conditionally dirty) bits. -/
lemma legacy_4k_success (s : MemoryAccessor) (l : Nat) (w u pse : Bool)
    (pde_addr pde pte_addr pte : Nat)
    (ha : pde_addr = ((s.control_registers 3 &&& 0xFFFFF000) +
      ((l >>> 22) &&& 0x3FF) * 4) &&& 0xFFFFFFFF)
    (hpde : pde = s.read_physical_32 pde_addr)
    (h1 : pde &&& 0x1 ≠ 0) (h2 : pde &&& 0xFFFFFF000 ≠ 0)
    (h3 : ¬(u = true ∧ pde &&& 0x4 = 0)) (h4 : ¬(w = true ∧ pde &&& 0x2 = 0))
    (h5 : ¬(pse = true ∧ pde &&& (1 <<< 7) ≠ 0))
    (hb : pte_addr = ((pde &&& 0xFFFFF000) + ((l >>> 12) &&& 0x3FF) * 4) &&&
      0xFFFFFFFF)
    (hpte : pte = s.read_physical_32 pte_addr)
    (h6 : pte &&& 0x1 ≠ 0) (h7 : pte &&& 0xFFFFFF000 ≠ 0)
    (h8 : ¬(u = true ∧ pte &&& 0x4 = 0)) (h9 : ¬(w = true ∧ pte &&& 0x2 = 0))
    (hdisj : pde_addr + 4 ≤ pte_addr ∨ pte_addr + 4 ≤ pde_addr) :
    (s.translate_linear_32 l w u pse).2.2 = 0 ∧
    (s.translate_linear_32 l w u pse).1.read_physical_32 pde_addr =
      pde ||| 0x20 ∧
    (s.translate_linear_32 l w u pse).1.read_physical_32 pte_addr =
      (pte ||| 0x20) ||| (if w then 0x40 else 0) := by
  have hpde_lt : pde < 2 ^ 32 := hpde ▸ s.read_physical_32_lt pde_addr
  have hpte_lt : pte < 2 ^ 32 := hpte ▸ s.read_physical_32_lt pte_addr
  subst hpte hb hpde ha
  refine ⟨?_, ?_, ?_⟩ <;>
    (unfold translate_linear_32; dsimp only;
     rw [if_neg h1, if_neg h2, if_neg h3, if_neg h4, if_neg h5, if_neg h6,
       if_neg h7, if_neg h8, if_neg h9])
  · rw [triple_fst]
    rw [read_physical_32_write_physical_32_ne _ _ _ _ (by omega)]
    rw [read_physical_32_write_physical_32_self]
    exact and_mask32_of_lt (Nat.or_lt_two_pow hpde_lt (by norm_num))
  · rw [triple_fst]
    rw [read_physical_32_write_physical_32_self]
    refine and_mask32_of_lt ?_
    refine Nat.or_lt_two_pow (Nat.or_lt_two_pow hpte_lt (by norm_num)) ?_
    cases w <;> norm_num

end MemoryAccessor
namespace MemoryAccessor

/-- Successful 4 KiB PAE translation: error 0, accessed bit written back
in the PDPTE and PDE, accessed (+ conditional dirty) in the PTE. -/
lemma pae_4k_success (s s1 : MemoryAccessor) (l : Nat) (w u : Bool)
    (pdpte_addr pdpte pde_addr pde pte_addr pte : Nat)
    (ha : pdpte_addr = ((s.control_registers 3 &&& 0xFFFFF000) +
      ((l >>> 30) &&& 0x3) * 8) &&& 0xFFFFFFFF)
    (hp : pdpte = s.read_physical_64 pdpte_addr)
    (h1 : pdpte &&& 0x1 ≠ 0) (h2 : ¬(u = true ∧ pdpte &&& 0x4 = 0))
    (h3 : ¬(w = true ∧ pdpte &&& 0x2 = 0))
    (hs1 : s1 = s.write_physical_64 pdpte_addr (pdpte ||| (1 <<< 5)))
    (hb : pde_addr = ((pdpte &&& 0xFFFFFF000) + ((l >>> 21) &&& 0x1FF) * 8) &&&
      0xFFFFFFFF)
    (hpde : pde = s1.read_physical_64 pde_addr)
    (h4 : pde &&& 0x1 ≠ 0) (h5 : ¬(u = true ∧ pde &&& 0x4 = 0))
    (h6 : ¬(w = true ∧ pde &&& 0x2 = 0)) (h7 : pde &&& (1 <<< 7) = 0)
    (hc : pte_addr = ((pde &&& 0xFFFFFF000) + ((l >>> 12) &&& 0x1FF) * 8) &&&
      0xFFFFFFFF)
    (hpte : pte = s1.read_physical_64 pte_addr)
    (h8 : pte &&& 0x1 ≠ 0) (h9 : ¬(u = true ∧ pte &&& 0x4 = 0))
    (h10 : ¬(w = true ∧ pte &&& 0x2 = 0))
    (d1 : pdpte_addr + 8 ≤ pde_addr ∨ pde_addr + 8 ≤ pdpte_addr)
    (d2 : pdpte_addr + 8 ≤ pte_addr ∨ pte_addr + 8 ≤ pdpte_addr)
    (d3 : pde_addr + 8 ≤ pte_addr ∨ pte_addr + 8 ≤ pde_addr) :
    (s.translate_linear_pae l w u).2.2 = 0 ∧
    (s.translate_linear_pae l w u).1.read_physical_64 pdpte_addr =
      pdpte ||| (1 <<< 5) ∧
    (s.translate_linear_pae l w u).1.read_physical_64 pde_addr =
      pde ||| 0x20 ∧
    (s.translate_linear_pae l w u).1.read_physical_64 pte_addr =
      (pte ||| 0x20) ||| (if w then 0x40 else 0) := by
  have hpdpte_lt : pdpte < 2 ^ 64 := hp ▸ s.read_physical_64_lt pdpte_addr
  have hpde_lt : pde < 2 ^ 64 := hpde ▸ s1.read_physical_64_lt pde_addr
  have hpte_lt : pte < 2 ^ 64 := hpte ▸ s1.read_physical_64_lt pte_addr
  subst hpte hc hpde hb hs1 hp ha
  refine ⟨?_, ?_, ?_, ?_⟩ <;>
    (unfold translate_linear_pae; dsimp only;
     rw [if_neg h1, if_neg h2, if_neg h3, if_neg h4, if_neg h5, if_neg h6,
       if_neg (not_not_intro h7), if_neg h8, if_neg h9, if_neg h10])
  · rw [triple_fst]
    rw [read_physical_64_write_physical_64_ne _ _ _ _ (by omega)]
    rw [read_physical_64_write_physical_64_ne _ _ _ _ (by omega)]
    rw [read_physical_64_write_physical_64_self]
    exact and_mask64_of_lt (Nat.or_lt_two_pow hpdpte_lt (by rw [Nat.shiftLeft_eq]; norm_num))
  · rw [triple_fst]
    rw [read_physical_64_write_physical_64_ne _ _ _ _ (by omega)]
    rw [read_physical_64_write_physical_64_self]
    exact and_mask64_of_lt (Nat.or_lt_two_pow hpde_lt (by norm_num))
  · rw [triple_fst]
    rw [read_physical_64_write_physical_64_self]
    refine and_mask64_of_lt ?_
    refine Nat.or_lt_two_pow (Nat.or_lt_two_pow hpte_lt (by norm_num)) ?_
    cases w <;> norm_num

/-- Successful 4 KiB IA-32e translation: error 0, accessed bit written
back in all four levels (dirty conditionally in the PTE). -/
lemma ia32e_4k_success (s s1 s2 : MemoryAccessor) (l : Nat) (w u : Bool)
    (pml4e_addr pml4e pdpte_addr pdpte pde_addr pde pte_addr pte : Nat)
    (ha : pml4e_addr = ((s.control_registers 3 &&& 0xFFFFF000) +
      ((l >>> 39) &&& 0x1FF) * 8) &&& 0xFFFFFFFF)
    (hp : pml4e = s.read_physical_64 pml4e_addr)
    (h1 : pml4e &&& 0x1 ≠ 0) (h2 : ¬(u = true ∧ pml4e &&& 0x4 = 0))
    (h3 : ¬(w = true ∧ pml4e &&& 0x2 = 0))
    (hs1 : s1 = s.write_physical_64 pml4e_addr (pml4e ||| (1 <<< 5)))
    (hb : pdpte_addr = ((pml4e &&& 0xFFFFFF000) + ((l >>> 30) &&& 0x1FF) * 8) &&&
      0xFFFFFFFF)
    (hq : pdpte = s1.read_physical_64 pdpte_addr)
    (h4 : pdpte &&& 0x1 ≠ 0) (h5 : ¬(u = true ∧ pdpte &&& 0x4 = 0))
    (h6 : ¬(w = true ∧ pdpte &&& 0x2 = 0))
    (hs2 : s2 = s1.write_physical_64 pdpte_addr (pdpte ||| (1 <<< 5)))
    (h7 : pdpte &&& (1 <<< 7) = 0)
    (hc : pde_addr = ((pdpte &&& 0xFFFFFF000) + ((l >>> 21) &&& 0x1FF) * 8) &&&
      0xFFFFFFFF)
    (hr : pde = s2.read_physical_64 pde_addr)
    (h8 : pde &&& 0x1 ≠ 0) (h9 : ¬(u = true ∧ pde &&& 0x4 = 0))
    (h10 : ¬(w = true ∧ pde &&& 0x2 = 0)) (h11 : pde &&& (1 <<< 7) = 0)
    (hd : pte_addr = ((pde &&& 0xFFFFFF000) + ((l >>> 12) &&& 0x1FF) * 8) &&&
      0xFFFFFFFF)
    (ht : pte = s2.read_physical_64 pte_addr)
    (h12 : pte &&& 0x1 ≠ 0) (h13 : ¬(u = true ∧ pte &&& 0x4 = 0))
    (h14 : ¬(w = true ∧ pte &&& 0x2 = 0))
    (d1 : pml4e_addr + 8 ≤ pdpte_addr ∨ pdpte_addr + 8 ≤ pml4e_addr)
    (d2 : pml4e_addr + 8 ≤ pde_addr ∨ pde_addr + 8 ≤ pml4e_addr)
    (d3 : pml4e_addr + 8 ≤ pte_addr ∨ pte_addr + 8 ≤ pml4e_addr)
    (d4 : pdpte_addr + 8 ≤ pde_addr ∨ pde_addr + 8 ≤ pdpte_addr)
    (d5 : pdpte_addr + 8 ≤ pte_addr ∨ pte_addr + 8 ≤ pdpte_addr)
    (d6 : pde_addr + 8 ≤ pte_addr ∨ pte_addr + 8 ≤ pde_addr) :
    (s.translate_linear_ia32e l w u).2.2 = 0 ∧
    (s.translate_linear_ia32e l w u).1.read_physical_64 pml4e_addr =
      pml4e ||| (1 <<< 5) ∧
    (s.translate_linear_ia32e l w u).1.read_physical_64 pdpte_addr =
      pdpte ||| (1 <<< 5) ∧
    (s.translate_linear_ia32e l w u).1.read_physical_64 pde_addr =
      pde ||| 0x20 ∧
    (s.translate_linear_ia32e l w u).1.read_physical_64 pte_addr =
      (pte ||| 0x20) ||| (if w then 0x40 else 0) := by
  have hpml4e_lt : pml4e < 2 ^ 64 := hp ▸ s.read_physical_64_lt pml4e_addr
  have hpdpte_lt : pdpte < 2 ^ 64 := hq ▸ s1.read_physical_64_lt pdpte_addr
  have hpde_lt : pde < 2 ^ 64 := hr ▸ s2.read_physical_64_lt pde_addr
  have hpte_lt : pte < 2 ^ 64 := ht ▸ s2.read_physical_64_lt pte_addr
  subst ht hd hr hc hs2 hq hb hs1 hp ha
  refine ⟨?_, ?_, ?_, ?_, ?_⟩ <;>
    (unfold translate_linear_ia32e; dsimp only;
     rw [if_neg h1, if_neg h2, if_neg h3, if_neg h4, if_neg h5, if_neg h6,
       if_neg (not_not_intro h7), if_neg h8, if_neg h9, if_neg h10,
       if_neg (not_not_intro h11), if_neg h12, if_neg h13, if_neg h14])
  · rw [triple_fst]
    rw [read_physical_64_write_physical_64_ne _ _ _ _ (by omega)]
    rw [read_physical_64_write_physical_64_ne _ _ _ _ (by omega)]
    rw [read_physical_64_write_physical_64_ne _ _ _ _ (by omega)]
    rw [read_physical_64_write_physical_64_self]
    exact and_mask64_of_lt (Nat.or_lt_two_pow hpml4e_lt (by rw [Nat.shiftLeft_eq]; norm_num))
  · rw [triple_fst]
    rw [read_physical_64_write_physical_64_ne _ _ _ _ (by omega)]
    rw [read_physical_64_write_physical_64_ne _ _ _ _ (by omega)]
    rw [read_physical_64_write_physical_64_self]
    exact and_mask64_of_lt (Nat.or_lt_two_pow hpdpte_lt (by rw [Nat.shiftLeft_eq]; norm_num))
  · rw [triple_fst]
    rw [read_physical_64_write_physical_64_ne _ _ _ _ (by omega)]
    rw [read_physical_64_write_physical_64_self]
    exact and_mask64_of_lt (Nat.or_lt_two_pow hpde_lt (by norm_num))
  · rw [triple_fst]
    rw [read_physical_64_write_physical_64_self]
    refine and_mask64_of_lt ?_
    refine Nat.or_lt_two_pow (Nat.or_lt_two_pow hpte_lt (by norm_num)) ?_
    cases w <;> norm_num

end MemoryAccessor
namespace MemoryAccessor

/-- A PAE walk that faults because the PDE is not present has already
written the accessed PDPTE back: the result state is exactly the
PDPTE-accessed write applied to the input state. -/
lemma pae_fault_after_pdpte_write (s s1 : MemoryAccessor) (l : Nat) (w u : Bool)
    (pdpte_addr pdpte pde_addr : Nat)
    (ha : pdpte_addr = ((s.control_registers 3 &&& 0xFFFFF000) +
      ((l >>> 30) &&& 0x3) * 8) &&& 0xFFFFFFFF)
    (hp : pdpte = s.read_physical_64 pdpte_addr)
    (h1 : pdpte &&& 0x1 ≠ 0) (h2 : ¬(u = true ∧ pdpte &&& 0x4 = 0))
    (h3 : ¬(w = true ∧ pdpte &&& 0x2 = 0))
    (hs1 : s1 = s.write_physical_64 pdpte_addr (pdpte ||| (1 <<< 5)))
    (hb : pde_addr = ((pdpte &&& 0xFFFFFF000) + ((l >>> 21) &&& 0x1FF) * 8) &&&
      0xFFFFFFFF)
    (h4 : s1.read_physical_64 pde_addr &&& 0x1 = 0) :
    s.translate_linear_pae l w u = (s1, l, (0x0E <<< 16) |||
      ((if w then 0b10 else 0) ||| (if u then 0b100 else 0))) ∧
    s1.read_physical_64 pdpte_addr = pdpte ||| (1 <<< 5) := by
  have hpdpte_lt : pdpte < 2 ^ 64 := hp ▸ s.read_physical_64_lt pdpte_addr
  subst hb hs1 hp ha
  constructor
  · unfold translate_linear_pae
    dsimp only
    rw [if_neg h1, if_neg h2, if_neg h3, if_pos h4]
  · rw [read_physical_64_write_physical_64_self]
    exact and_mask64_of_lt (Nat.or_lt_two_pow hpdpte_lt
      (by rw [Nat.shiftLeft_eq]; norm_num))

/-- An IA-32e walk that faults because the PDE is not present has already
written the accessed PML4E and PDPTE back: the result state is exactly the
two accessed-writes applied to the input state. -/
lemma ia32e_fault_after_upper_writes (s s1 s2 : MemoryAccessor) (l : Nat)
    (w u : Bool) (pml4e_addr pml4e pdpte_addr pdpte pde_addr : Nat)
    (ha : pml4e_addr = ((s.control_registers 3 &&& 0xFFFFF000) +
      ((l >>> 39) &&& 0x1FF) * 8) &&& 0xFFFFFFFF)
    (hp : pml4e = s.read_physical_64 pml4e_addr)
    (h1 : pml4e &&& 0x1 ≠ 0) (h2 : ¬(u = true ∧ pml4e &&& 0x4 = 0))
    (h3 : ¬(w = true ∧ pml4e &&& 0x2 = 0))
    (hs1 : s1 = s.write_physical_64 pml4e_addr (pml4e ||| (1 <<< 5)))
    (hb : pdpte_addr = ((pml4e &&& 0xFFFFFF000) + ((l >>> 30) &&& 0x1FF) * 8) &&&
      0xFFFFFFFF)
    (hq : pdpte = s1.read_physical_64 pdpte_addr)
    (h4 : pdpte &&& 0x1 ≠ 0) (h5 : ¬(u = true ∧ pdpte &&& 0x4 = 0))
    (h6 : ¬(w = true ∧ pdpte &&& 0x2 = 0))
    (hs2 : s2 = s1.write_physical_64 pdpte_addr (pdpte ||| (1 <<< 5)))
    (h7 : pdpte &&& (1 <<< 7) = 0)
    (hc : pde_addr = ((pdpte &&& 0xFFFFFF000) + ((l >>> 21) &&& 0x1FF) * 8) &&&
      0xFFFFFFFF)
    (h8 : s2.read_physical_64 pde_addr &&& 0x1 = 0)
    (d1 : pml4e_addr + 8 ≤ pdpte_addr ∨ pdpte_addr + 8 ≤ pml4e_addr) :
    s.translate_linear_ia32e l w u = (s2, l, (0x0E <<< 16) |||
      ((if w then 0b10 else 0) ||| (if u then 0b100 else 0))) ∧
    s2.read_physical_64 pml4e_addr = pml4e ||| (1 <<< 5) ∧
    s2.read_physical_64 pdpte_addr = pdpte ||| (1 <<< 5) := by
  have hpml4e_lt : pml4e < 2 ^ 64 := hp ▸ s.read_physical_64_lt pml4e_addr
  have hpdpte_lt : pdpte < 2 ^ 64 := hq ▸ s1.read_physical_64_lt pdpte_addr
  subst hc hs2 hq hb hs1 hp ha
  refine ⟨?_, ?_, ?_⟩
  · unfold translate_linear_ia32e
    dsimp only
    rw [if_neg h1, if_neg h2, if_neg h3, if_neg h4, if_neg h5, if_neg h6,
      if_neg (not_not_intro h7), if_pos h8]
  · rw [read_physical_64_write_physical_64_ne _ _ _ _ (by omega)]
    rw [read_physical_64_write_physical_64_self]
    exact and_mask64_of_lt (Nat.or_lt_two_pow hpml4e_lt
      (by rw [Nat.shiftLeft_eq]; norm_num))
  · rw [read_physical_64_write_physical_64_self]
    exact and_mask64_of_lt (Nat.or_lt_two_pow hpdpte_lt
      (by rw [Nat.shiftLeft_eq]; norm_num))

end MemoryAccessor
namespace MemoryAccessor

/-- Bridge: with paging enabled, `translate_linear` returns exactly the
error code of the dispatched walk, applied to the masked address. -/
lemma translate_linear_err_dispatch (s : MemoryAccessor) (l : Nat)
    (w u : Bool) (mask : Nat) :
    (s.translate_linear l w u true mask).2.2 =
      (if (s.control_registers 4 &&& (1 <<< 5) != 0) then
        (if (s.efer &&& (1 <<< 8) != 0) then
          (s.translate_linear_ia32e (l &&& mask) w u).2.2
         else (s.translate_linear_pae (l &&& mask) w u).2.2)
       else
        (s.translate_linear_32 (l &&& mask) w u
          (s.control_registers 4 &&& (1 <<< 4) != 0)).2.2) := by
  unfold translate_linear
  lift_lets
  extract_lets lin cr4 pse pae lme res sw physical err cr2
  rw [if_neg (by simp)]
  by_cases he : err ≠ 0
  · rw [if_pos he]
    show err = _
    show res.2.2 = _
    show (if pae then
            if lme then s.translate_linear_ia32e lin w u
            else s.translate_linear_pae lin w u
          else s.translate_linear_32 lin w u pse).2.2 = _
    by_cases hpae : pae = true
    · rw [if_pos hpae, if_pos hpae]
      by_cases hlme : lme = true
      · rw [if_pos hlme, if_pos hlme]
      · rw [if_neg hlme, if_neg hlme]
    · rw [if_neg hpae, if_neg hpae]
  · rw [if_neg he]
    show err = _
    show res.2.2 = _
    show (if pae then
            if lme then s.translate_linear_ia32e lin w u
            else s.translate_linear_pae lin w u
          else s.translate_linear_32 lin w u pse).2.2 = _
    by_cases hpae : pae = true
    · rw [if_pos hpae, if_pos hpae]
      by_cases hlme : lme = true
      · rw [if_pos hlme, if_pos hlme]
      · rw [if_neg hlme, if_neg hlme]
    · rw [if_neg hpae, if_neg hpae]

end MemoryAccessor
namespace MemoryAccessor

/-- C1 (counterexample).  The claim asserts every failing page-table check
yields error bits containing the write bit 0b010 iff `is_write` (and the
present bit unless the failing check was a present-bit check).  A legacy
reserved-bits fault with `is_write = true` returns error code 0x000E0008:
bit 3 only, with neither the write bit nor the present bit set. -/
theorem c1_fault_error_bits_cex :
    (demoLegacyRsvdPde.translate_linear 0 true false true 0xFFFFFFFF).2.2 =
      0x000E0008 ∧
    (0x000E0008 : Nat) &&& 0b010 = 0 ∧ (0x000E0008 : Nat) &&& 0b001 = 0 :=
  ⟨by decide, by decide, by decide⟩

/-- C1 (amended).  For every call that fails a present-bit, user-access or
write-access check — at any level of any of the three walks — the error
code is `(0x0E <<< 16) ||| bits`, with the write bit 0b010 iff `is_write`,
the user bit 0b100 iff `is_user`, and the present bit 0b001 present
exactly on the user/write protection faults and absent on not-present
faults.  (Reserved-bit faults of the legacy walk are excluded; they return
only bit 3, and bit 4 under instruction fetch — see C2.)  The final
conjunct bridges to `translate_linear`: with paging enabled it returns the
dispatched walk's error code unchanged. -/
theorem c1_fault_error_bits :
    (∀ (s : MemoryAccessor) (l : Nat) (w u pse : Bool) (pde_addr pde : Nat),
      pde_addr = ((s.control_registers 3 &&& 0xFFFFF000) +
        ((l >>> 22) &&& 0x3FF) * 4) &&& 0xFFFFFFFF →
      pde = s.read_physical_32 pde_addr →
      (pde &&& 0x1 = 0 →
        (s.translate_linear_32 l w u pse).2.2 = (0x0E <<< 16) |||
          ((if w then 0b10 else 0) ||| (if u then 0b100 else 0))) ∧
      (pde &&& 0x1 ≠ 0 → pde &&& 0xFFFFFF000 ≠ 0 → u = true → pde &&& 0x4 = 0 →
        (s.translate_linear_32 l w u pse).2.2 = (0x0E <<< 16) |||
          ((if w then 0b10 else 0) ||| 0b100 ||| 0b1)) ∧
      (pde &&& 0x1 ≠ 0 → pde &&& 0xFFFFFF000 ≠ 0 → ¬(u = true ∧ pde &&& 0x4 = 0) →
        w = true → pde &&& 0x2 = 0 →
        (s.translate_linear_32 l w u pse).2.2 = (0x0E <<< 16) |||
          (0b10 ||| (if u then 0b100 else 0) ||| 0b1))) ∧
    (∀ (s : MemoryAccessor) (l : Nat) (w u pse : Bool)
      (pde_addr pde pte_addr pte : Nat),
      pde_addr = ((s.control_registers 3 &&& 0xFFFFF000) +
        ((l >>> 22) &&& 0x3FF) * 4) &&& 0xFFFFFFFF →
      pde = s.read_physical_32 pde_addr →
      pde &&& 0x1 ≠ 0 → pde &&& 0xFFFFFF000 ≠ 0 →
      ¬(u = true ∧ pde &&& 0x4 = 0) → ¬(w = true ∧ pde &&& 0x2 = 0) →
      ¬(pse = true ∧ pde &&& (1 <<< 7) ≠ 0) →
      pte_addr = ((pde &&& 0xFFFFF000) + ((l >>> 12) &&& 0x3FF) * 4) &&&
        0xFFFFFFFF →
      pte = s.read_physical_32 pte_addr →
      (pte &&& 0x1 = 0 →
        (s.translate_linear_32 l w u pse).2.2 = (0x0E <<< 16) |||
          ((if w then 0b10 else 0) ||| (if u then 0b100 else 0))) ∧
      (pte &&& 0x1 ≠ 0 → pte &&& 0xFFFFFF000 ≠ 0 → u = true → pte &&& 0x4 = 0 →
        (s.translate_linear_32 l w u pse).2.2 = (0x0E <<< 16) |||
          ((if w then 0b10 else 0) ||| 0b100 ||| 0b1)) ∧
      (pte &&& 0x1 ≠ 0 → pte &&& 0xFFFFFF000 ≠ 0 → ¬(u = true ∧ pte &&& 0x4 = 0) →
        w = true → pte &&& 0x2 = 0 →
        (s.translate_linear_32 l w u pse).2.2 = (0x0E <<< 16) |||
          (0b10 ||| (if u then 0b100 else 0) ||| 0b1))) ∧
    (∀ (s : MemoryAccessor) (l : Nat) (w u : Bool) (pdpte_addr pdpte : Nat),
      pdpte_addr = ((s.control_registers 3 &&& 0xFFFFF000) +
        ((l >>> 30) &&& 0x3) * 8) &&& 0xFFFFFFFF →
      pdpte = s.read_physical_64 pdpte_addr →
      (pdpte &&& 0x1 = 0 →
        (s.translate_linear_pae l w u).2.2 = (0x0E <<< 16) |||
          ((if w then 0b10 else 0) ||| (if u then 0b100 else 0))) ∧
      (pdpte &&& 0x1 ≠ 0 → u = true → pdpte &&& 0x4 = 0 →
        (s.translate_linear_pae l w u).2.2 = (0x0E <<< 16) |||
          ((if w then 0b10 else 0) ||| 0b100 ||| 0b1)) ∧
      (pdpte &&& 0x1 ≠ 0 → ¬(u = true ∧ pdpte &&& 0x4 = 0) →
        w = true → pdpte &&& 0x2 = 0 →
        (s.translate_linear_pae l w u).2.2 = (0x0E <<< 16) |||
          (0b10 ||| (if u then 0b100 else 0) ||| 0b1))) ∧
    (∀ (s s1 : MemoryAccessor) (l : Nat) (w u : Bool)
      (pdpte_addr pdpte pde_addr pde : Nat),
      pdpte_addr = ((s.control_registers 3 &&& 0xFFFFF000) +
        ((l >>> 30) &&& 0x3) * 8) &&& 0xFFFFFFFF →
      pdpte = s.read_physical_64 pdpte_addr →
      pdpte &&& 0x1 ≠ 0 → ¬(u = true ∧ pdpte &&& 0x4 = 0) →
      ¬(w = true ∧ pdpte &&& 0x2 = 0) →
      s1 = s.write_physical_64 pdpte_addr (pdpte ||| (1 <<< 5)) →
      pde_addr = ((pdpte &&& 0xFFFFFF000) + ((l >>> 21) &&& 0x1FF) * 8) &&&
        0xFFFFFFFF →
      pde = s1.read_physical_64 pde_addr →
      (pde &&& 0x1 = 0 →
        (s.translate_linear_pae l w u).2.2 = (0x0E <<< 16) |||
          ((if w then 0b10 else 0) ||| (if u then 0b100 else 0))) ∧
      (pde &&& 0x1 ≠ 0 → u = true → pde &&& 0x4 = 0 →
        (s.translate_linear_pae l w u).2.2 = (0x0E <<< 16) |||
          ((if w then 0b10 else 0) ||| 0b100 ||| 0b1)) ∧
      (pde &&& 0x1 ≠ 0 → ¬(u = true ∧ pde &&& 0x4 = 0) →
        w = true → pde &&& 0x2 = 0 →
        (s.translate_linear_pae l w u).2.2 = (0x0E <<< 16) |||
          (0b10 ||| (if u then 0b100 else 0) ||| 0b1))) ∧
    (∀ (s s1 : MemoryAccessor) (l : Nat) (w u : Bool)
      (pdpte_addr pdpte pde_addr pde pte_addr pte : Nat),
      pdpte_addr = ((s.control_registers 3 &&& 0xFFFFF000) +
        ((l >>> 30) &&& 0x3) * 8) &&& 0xFFFFFFFF →
      pdpte = s.read_physical_64 pdpte_addr →
      pdpte &&& 0x1 ≠ 0 → ¬(u = true ∧ pdpte &&& 0x4 = 0) →
      ¬(w = true ∧ pdpte &&& 0x2 = 0) →
      s1 = s.write_physical_64 pdpte_addr (pdpte ||| (1 <<< 5)) →
      pde_addr = ((pdpte &&& 0xFFFFFF000) + ((l >>> 21) &&& 0x1FF) * 8) &&&
        0xFFFFFFFF →
      pde = s1.read_physical_64 pde_addr →
      pde &&& 0x1 ≠ 0 → ¬(u = true ∧ pde &&& 0x4 = 0) →
      ¬(w = true ∧ pde &&& 0x2 = 0) → pde &&& (1 <<< 7) = 0 →
      pte_addr = ((pde &&& 0xFFFFFF000) + ((l >>> 12) &&& 0x1FF) * 8) &&&
        0xFFFFFFFF →
      pte = s1.read_physical_64 pte_addr →
      (pte &&& 0x1 = 0 →
        (s.translate_linear_pae l w u).2.2 = (0x0E <<< 16) |||
          ((if w then 0b10 else 0) ||| (if u then 0b100 else 0))) ∧
      (pte &&& 0x1 ≠ 0 → u = true → pte &&& 0x4 = 0 →
        (s.translate_linear_pae l w u).2.2 = (0x0E <<< 16) |||
          ((if w then 0b10 else 0) ||| 0b100 ||| 0b1)) ∧
      (pte &&& 0x1 ≠ 0 → ¬(u = true ∧ pte &&& 0x4 = 0) →
        w = true → pte &&& 0x2 = 0 →
        (s.translate_linear_pae l w u).2.2 = (0x0E <<< 16) |||
          (0b10 ||| (if u then 0b100 else 0) ||| 0b1))) ∧
    (∀ (s : MemoryAccessor) (l : Nat) (w u : Bool) (pml4e_addr pml4e : Nat),
      pml4e_addr = ((s.control_registers 3 &&& 0xFFFFF000) +
        ((l >>> 39) &&& 0x1FF) * 8) &&& 0xFFFFFFFF →
      pml4e = s.read_physical_64 pml4e_addr →
      (pml4e &&& 0x1 = 0 →
        (s.translate_linear_ia32e l w u).2.2 = (0x0E <<< 16) |||
          ((if w then 0b10 else 0) ||| (if u then 0b100 else 0))) ∧
      (pml4e &&& 0x1 ≠ 0 → u = true → pml4e &&& 0x4 = 0 →
        (s.translate_linear_ia32e l w u).2.2 = (0x0E <<< 16) |||
          ((if w then 0b10 else 0) ||| 0b100 ||| 0b1)) ∧
      (pml4e &&& 0x1 ≠ 0 → ¬(u = true ∧ pml4e &&& 0x4 = 0) →
        w = true → pml4e &&& 0x2 = 0 →
        (s.translate_linear_ia32e l w u).2.2 = (0x0E <<< 16) |||
          (0b10 ||| (if u then 0b100 else 0) ||| 0b1))) ∧
    (∀ (s s1 : MemoryAccessor) (l : Nat) (w u : Bool)
      (pml4e_addr pml4e pdpte_addr pdpte : Nat),
      pml4e_addr = ((s.control_registers 3 &&& 0xFFFFF000) +
        ((l >>> 39) &&& 0x1FF) * 8) &&& 0xFFFFFFFF →
      pml4e = s.read_physical_64 pml4e_addr →
      pml4e &&& 0x1 ≠ 0 → ¬(u = true ∧ pml4e &&& 0x4 = 0) →
      ¬(w = true ∧ pml4e &&& 0x2 = 0) →
      s1 = s.write_physical_64 pml4e_addr (pml4e ||| (1 <<< 5)) →
      pdpte_addr = ((pml4e &&& 0xFFFFFF000) + ((l >>> 30) &&& 0x1FF) * 8) &&&
        0xFFFFFFFF →
      pdpte = s1.read_physical_64 pdpte_addr →
      (pdpte &&& 0x1 = 0 →
        (s.translate_linear_ia32e l w u).2.2 = (0x0E <<< 16) |||
          ((if w then 0b10 else 0) ||| (if u then 0b100 else 0))) ∧
      (pdpte &&& 0x1 ≠ 0 → u = true → pdpte &&& 0x4 = 0 →
        (s.translate_linear_ia32e l w u).2.2 = (0x0E <<< 16) |||
          ((if w then 0b10 else 0) ||| 0b100 ||| 0b1)) ∧
      (pdpte &&& 0x1 ≠ 0 → ¬(u = true ∧ pdpte &&& 0x4 = 0) →
        w = true → pdpte &&& 0x2 = 0 →
        (s.translate_linear_ia32e l w u).2.2 = (0x0E <<< 16) |||
          (0b10 ||| (if u then 0b100 else 0) ||| 0b1))) ∧
    (∀ (s s1 s2 : MemoryAccessor) (l : Nat) (w u : Bool)
      (pml4e_addr pml4e pdpte_addr pdpte pde_addr pde : Nat),
      pml4e_addr = ((s.control_registers 3 &&& 0xFFFFF000) +
        ((l >>> 39) &&& 0x1FF) * 8) &&& 0xFFFFFFFF →
      pml4e = s.read_physical_64 pml4e_addr →
      pml4e &&& 0x1 ≠ 0 → ¬(u = true ∧ pml4e &&& 0x4 = 0) →
      ¬(w = true ∧ pml4e &&& 0x2 = 0) →
      s1 = s.write_physical_64 pml4e_addr (pml4e ||| (1 <<< 5)) →
      pdpte_addr = ((pml4e &&& 0xFFFFFF000) + ((l >>> 30) &&& 0x1FF) * 8) &&&
        0xFFFFFFFF →
      pdpte = s1.read_physical_64 pdpte_addr →
      pdpte &&& 0x1 ≠ 0 → ¬(u = true ∧ pdpte &&& 0x4 = 0) →
      ¬(w = true ∧ pdpte &&& 0x2 = 0) →
      s2 = s1.write_physical_64 pdpte_addr (pdpte ||| (1 <<< 5)) →
      pdpte &&& (1 <<< 7) = 0 →
      pde_addr = ((pdpte &&& 0xFFFFFF000) + ((l >>> 21) &&& 0x1FF) * 8) &&&
        0xFFFFFFFF →
      pde = s2.read_physical_64 pde_addr →
      (pde &&& 0x1 = 0 →
        (s.translate_linear_ia32e l w u).2.2 = (0x0E <<< 16) |||
          ((if w then 0b10 else 0) ||| (if u then 0b100 else 0))) ∧
      (pde &&& 0x1 ≠ 0 → u = true → pde &&& 0x4 = 0 →
        (s.translate_linear_ia32e l w u).2.2 = (0x0E <<< 16) |||
          ((if w then 0b10 else 0) ||| 0b100 ||| 0b1)) ∧
      (pde &&& 0x1 ≠ 0 → ¬(u = true ∧ pde &&& 0x4 = 0) →
        w = true → pde &&& 0x2 = 0 →
        (s.translate_linear_ia32e l w u).2.2 = (0x0E <<< 16) |||
          (0b10 ||| (if u then 0b100 else 0) ||| 0b1))) ∧
    (∀ (s s1 s2 : MemoryAccessor) (l : Nat) (w u : Bool)
      (pml4e_addr pml4e pdpte_addr pdpte pde_addr pde pte_addr pte : Nat),
      pml4e_addr = ((s.control_registers 3 &&& 0xFFFFF000) +
        ((l >>> 39) &&& 0x1FF) * 8) &&& 0xFFFFFFFF →
      pml4e = s.read_physical_64 pml4e_addr →
      pml4e &&& 0x1 ≠ 0 → ¬(u = true ∧ pml4e &&& 0x4 = 0) →
      ¬(w = true ∧ pml4e &&& 0x2 = 0) →
      s1 = s.write_physical_64 pml4e_addr (pml4e ||| (1 <<< 5)) →
      pdpte_addr = ((pml4e &&& 0xFFFFFF000) + ((l >>> 30) &&& 0x1FF) * 8) &&&
        0xFFFFFFFF →
      pdpte = s1.read_physical_64 pdpte_addr →
      pdpte &&& 0x1 ≠ 0 → ¬(u = true ∧ pdpte &&& 0x4 = 0) →
      ¬(w = true ∧ pdpte &&& 0x2 = 0) →
      s2 = s1.write_physical_64 pdpte_addr (pdpte ||| (1 <<< 5)) →
      pdpte &&& (1 <<< 7) = 0 →
      pde_addr = ((pdpte &&& 0xFFFFFF000) + ((l >>> 21) &&& 0x1FF) * 8) &&&
        0xFFFFFFFF →
      pde = s2.read_physical_64 pde_addr →
      pde &&& 0x1 ≠ 0 → ¬(u = true ∧ pde &&& 0x4 = 0) →
      ¬(w = true ∧ pde &&& 0x2 = 0) → pde &&& (1 <<< 7) = 0 →
      pte_addr = ((pde &&& 0xFFFFFF000) + ((l >>> 12) &&& 0x1FF) * 8) &&&
        0xFFFFFFFF →
      pte = s2.read_physical_64 pte_addr →
      (pte &&& 0x1 = 0 →
        (s.translate_linear_ia32e l w u).2.2 = (0x0E <<< 16) |||
          ((if w then 0b10 else 0) ||| (if u then 0b100 else 0))) ∧
      (pte &&& 0x1 ≠ 0 → u = true → pte &&& 0x4 = 0 →
        (s.translate_linear_ia32e l w u).2.2 = (0x0E <<< 16) |||
          ((if w then 0b10 else 0) ||| 0b100 ||| 0b1)) ∧
      (pte &&& 0x1 ≠ 0 → ¬(u = true ∧ pte &&& 0x4 = 0) →
        w = true → pte &&& 0x2 = 0 →
        (s.translate_linear_ia32e l w u).2.2 = (0x0E <<< 16) |||
          (0b10 ||| (if u then 0b100 else 0) ||| 0b1))) ∧
    (∀ (s : MemoryAccessor) (l : Nat) (w u : Bool) (mask : Nat),
      (s.translate_linear l w u true mask).2.2 =
        (if (s.control_registers 4 &&& (1 <<< 5) != 0) then
          (if (s.efer &&& (1 <<< 8) != 0) then
            (s.translate_linear_ia32e (l &&& mask) w u).2.2
           else (s.translate_linear_pae (l &&& mask) w u).2.2)
         else
          (s.translate_linear_32 (l &&& mask) w u
            (s.control_registers 4 &&& (1 <<< 4) != 0)).2.2)) :=
  ⟨fun s l w u pse pde_addr pde ha hp =>
      ⟨(legacy_pde_level s l w u pse pde_addr pde ha hp).1,
       (legacy_pde_level s l w u pse pde_addr pde ha hp).2.2.1,
       (legacy_pde_level s l w u pse pde_addr pde ha hp).2.2.2⟩,
   fun s l w u pse pde_addr pde pte_addr pte ha hp h1 h2 h3 h4 h5 hb ht =>
      ⟨(legacy_pte_level s l w u pse pde_addr pde pte_addr pte ha hp h1 h2 h3
          h4 h5 hb ht).1,
       (legacy_pte_level s l w u pse pde_addr pde pte_addr pte ha hp h1 h2 h3
          h4 h5 hb ht).2.2.1,
       (legacy_pte_level s l w u pse pde_addr pde pte_addr pte ha hp h1 h2 h3
          h4 h5 hb ht).2.2.2⟩,
   pae_pdpte_level, pae_pde_level,
   pae_pte_level, ia32e_pml4e_level, ia32e_pdpte_level, ia32e_pde_level,
   ia32e_pte_level, translate_linear_err_dispatch⟩

/-- Witness for C1: a not-present PDE fault on the legacy demo state at
linear 0x400000 with `is_write` yields error code with only the write bit
(0x000E0002). -/
theorem c1_fault_error_bits_witness :
    (demoLegacy.translate_linear_32 0x400000 true false false).2.2 =
      (0x0E <<< 16) |||
        ((if true then 0b10 else 0) ||| (if false then 0b100 else 0)) :=
  (c1_fault_error_bits.1 demoLegacy 0x400000 true false false 0x1004
    (demoLegacy.read_physical_32 0x1004) (by decide) rfl).1 (by decide)

end MemoryAccessor
namespace MemoryAccessor

/-- C2 (counterexample).  The claim asserts a legacy reserved-bits fault
carries, besides bit 3, the standard fault bits (present 0b001, write
0b010 when `is_write`, user 0b100 when `is_user`).  With `is_write` and
`is_user` both set, the code returns 0x000E0008, in which none of the
three standard bits is set. -/
theorem c2_reserved_fault_bits_cex :
    (demoLegacyRsvdPde.translate_linear 0 true true true 0xFFFFFFFF).2.2 =
      0x000E0008 ∧
    (0x000E0008 : Nat) &&& 0b111 = 0 :=
  ⟨by decide, by decide⟩

/-- C2 (amended).  A reserved-bits fault in the legacy 32-bit walk — a
present entry whose physical-base field is all zero, at either the
directory or the table level — returns error code
`(0x0E <<< 16) ||| (0x08 ||| 0x10?)`: bit 3 (reserved-bit violation) and,
when instruction-fetch mode is set, bit 4, and nothing else; the present,
write and user bits are NOT included, whatever `is_write` and `is_user`
are. -/
theorem c2_reserved_fault_bits :
    (∀ (s : MemoryAccessor) (l : Nat) (w u pse : Bool) (pde_addr pde : Nat),
      pde_addr = ((s.control_registers 3 &&& 0xFFFFF000) +
        ((l >>> 22) &&& 0x3FF) * 4) &&& 0xFFFFFFFF →
      pde = s.read_physical_32 pde_addr →
      pde &&& 0x1 ≠ 0 → pde &&& 0xFFFFFF000 = 0 →
      (s.translate_linear_32 l w u pse).2.2 = (0x0E <<< 16) |||
        (0x08 ||| (if s.instruction_fetch then 0x10 else 0))) ∧
    (∀ (s : MemoryAccessor) (l : Nat) (w u pse : Bool)
      (pde_addr pde pte_addr pte : Nat),
      pde_addr = ((s.control_registers 3 &&& 0xFFFFF000) +
        ((l >>> 22) &&& 0x3FF) * 4) &&& 0xFFFFFFFF →
      pde = s.read_physical_32 pde_addr →
      pde &&& 0x1 ≠ 0 → pde &&& 0xFFFFFF000 ≠ 0 →
      ¬(u = true ∧ pde &&& 0x4 = 0) → ¬(w = true ∧ pde &&& 0x2 = 0) →
      ¬(pse = true ∧ pde &&& (1 <<< 7) ≠ 0) →
      pte_addr = ((pde &&& 0xFFFFF000) + ((l >>> 12) &&& 0x3FF) * 4) &&&
        0xFFFFFFFF →
      pte = s.read_physical_32 pte_addr →
      pte &&& 0x1 ≠ 0 → pte &&& 0xFFFFFF000 = 0 →
      (s.translate_linear_32 l w u pse).2.2 = (0x0E <<< 16) |||
        (0x08 ||| (if s.instruction_fetch then 0x10 else 0))) :=
  ⟨fun s l w u pse pde_addr pde ha hp =>
      (legacy_pde_level s l w u pse pde_addr pde ha hp).2.1,
   fun s l w u pse pde_addr pde pte_addr pte ha hp h1 h2 h3 h4 h5 hb ht =>
      (legacy_pte_level s l w u pse pde_addr pde pte_addr pte ha hp h1 h2 h3
        h4 h5 hb ht).2.1⟩

/-- Witness for C2: the directory-level reserved fault on the demo state
(instruction fetch clear) returns exactly bit 3. -/
theorem c2_reserved_fault_bits_witness :
    (demoLegacyRsvdPde.translate_linear_32 0 true true false).2.2 =
      (0x0E <<< 16) |||
        (0x08 ||| (if demoLegacyRsvdPde.instruction_fetch then 0x10 else 0)) :=
  c2_reserved_fault_bits.1 demoLegacyRsvdPde 0 true true false 0x1000
    (demoLegacyRsvdPde.read_physical_32 0x1000) (by decide) rfl (by decide)
    (by decide)

/-- C3 (counterexample).  The claim asserts a present legacy PTE with an
all-zero physical base never produces a reserved-bit fault (only a PDE
can).  On a state whose PDE is present with nonzero base and whose PTE is
present with zero base, the walk does return a reserved-bit fault
(bit 3 set). -/
theorem c3_reserved_check_levels_cex :
    demoLegacyRsvdPte.read_physical_32 0x1000 &&& 0xFFFFFF000 ≠ 0 ∧
    demoLegacyRsvdPte.read_physical_32 0x2000 &&& 0x1 ≠ 0 ∧
    demoLegacyRsvdPte.read_physical_32 0x2000 &&& 0xFFFFFF000 = 0 ∧
    (demoLegacyRsvdPte.translate_linear 0 false false true 0xFFFFFFFF).2.2 &&&
      0x8 ≠ 0 :=
  ⟨by decide, by decide, by decide, by decide⟩

/-- C3 (amended).  The reserved/zero-physical-base check is performed at
BOTH levels of the legacy 32-bit walk — a present PDE or a present PTE
with all-zero physical base each produce a reserved-bit fault — and at no
level of the PAE or IA-32e walks, whose error codes never contain bit 3. -/
theorem c3_reserved_check_levels :
    (∀ (s : MemoryAccessor) (l : Nat) (w u pse : Bool) (pde_addr pde : Nat),
      pde_addr = ((s.control_registers 3 &&& 0xFFFFF000) +
        ((l >>> 22) &&& 0x3FF) * 4) &&& 0xFFFFFFFF →
      pde = s.read_physical_32 pde_addr →
      pde &&& 0x1 ≠ 0 → pde &&& 0xFFFFFF000 = 0 →
      (s.translate_linear_32 l w u pse).2.2 &&& 0x8 ≠ 0) ∧
    (∀ (s : MemoryAccessor) (l : Nat) (w u pse : Bool)
      (pde_addr pde pte_addr pte : Nat),
      pde_addr = ((s.control_registers 3 &&& 0xFFFFF000) +
        ((l >>> 22) &&& 0x3FF) * 4) &&& 0xFFFFFFFF →
      pde = s.read_physical_32 pde_addr →
      pde &&& 0x1 ≠ 0 → pde &&& 0xFFFFFF000 ≠ 0 →
      ¬(u = true ∧ pde &&& 0x4 = 0) → ¬(w = true ∧ pde &&& 0x2 = 0) →
      ¬(pse = true ∧ pde &&& (1 <<< 7) ≠ 0) →
      pte_addr = ((pde &&& 0xFFFFF000) + ((l >>> 12) &&& 0x3FF) * 4) &&&
        0xFFFFFFFF →
      pte = s.read_physical_32 pte_addr →
      pte &&& 0x1 ≠ 0 → pte &&& 0xFFFFFF000 = 0 →
      (s.translate_linear_32 l w u pse).2.2 &&& 0x8 ≠ 0) ∧
    (∀ (s : MemoryAccessor) (l : Nat) (w u : Bool),
      (s.translate_linear_pae l w u).2.2 &&& 0x8 = 0) ∧
    (∀ (s : MemoryAccessor) (l : Nat) (w u : Bool),
      (s.translate_linear_ia32e l w u).2.2 &&& 0x8 = 0) := by
  refine ⟨?_, ?_, pae_no_reserved_bit, ia32e_no_reserved_bit⟩
  · intro s l w u pse pde_addr pde ha hp h1 h2
    rw [(legacy_pde_level s l w u pse pde_addr pde ha hp).2.1 h1 h2]
    cases hf : s.instruction_fetch <;> decide
  · intro s l w u pse pde_addr pde pte_addr pte ha hp h1 h2 h3 h4 h5 hb ht g1 g2
    rw [(legacy_pte_level s l w u pse pde_addr pde pte_addr pte ha hp h1 h2 h3
      h4 h5 hb ht).2.1 g1 g2]
    cases hf : s.instruction_fetch <;> decide

/-- Witness for C3: the table-level reserved fault fires on the demo
state whose PTE is present with zero base. -/
theorem c3_reserved_check_levels_witness :
    (demoLegacyRsvdPte.translate_linear_32 0 false false false).2.2 &&&
      0x8 ≠ 0 :=
  c3_reserved_check_levels.2.1 demoLegacyRsvdPte 0 false false false 0x1000
    (demoLegacyRsvdPte.read_physical_32 0x1000) 0x2000
    (demoLegacyRsvdPte.read_physical_32 0x2000) (by decide) rfl (by decide)
    (by decide) (by decide) (by decide) (by decide) (by decide) rfl
    (by decide) (by decide)

end MemoryAccessor
namespace MemoryAccessor

/-- C5.  Every translation that succeeds through a 4 KiB mapping sets the
accessed bit (bit 5) of each traversed non-leaf entry and writes it back,
and writes the leaf entry back with its accessed bit set and the dirty bit
(bit 6) additionally set when `is_write`: the legacy walk updates PDE and
PTE, the PAE walk updates PDPTE, PDE and PTE, and the IA-32e walk updates
all four levels.  (The table-entry addresses are assumed pairwise
non-overlapping, as in any well-formed page-table layout.) -/
theorem c5_accessed_dirty_writeback :
    (∀ (s : MemoryAccessor) (l : Nat) (w u pse : Bool)
      (pde_addr pde pte_addr pte : Nat),
      pde_addr = ((s.control_registers 3 &&& 0xFFFFF000) +
        ((l >>> 22) &&& 0x3FF) * 4) &&& 0xFFFFFFFF →
      pde = s.read_physical_32 pde_addr →
      pde &&& 0x1 ≠ 0 → pde &&& 0xFFFFFF000 ≠ 0 →
      ¬(u = true ∧ pde &&& 0x4 = 0) → ¬(w = true ∧ pde &&& 0x2 = 0) →
      ¬(pse = true ∧ pde &&& (1 <<< 7) ≠ 0) →
      pte_addr = ((pde &&& 0xFFFFF000) + ((l >>> 12) &&& 0x3FF) * 4) &&&
        0xFFFFFFFF →
      pte = s.read_physical_32 pte_addr →
      pte &&& 0x1 ≠ 0 → pte &&& 0xFFFFFF000 ≠ 0 →
      ¬(u = true ∧ pte &&& 0x4 = 0) → ¬(w = true ∧ pte &&& 0x2 = 0) →
      (pde_addr + 4 ≤ pte_addr ∨ pte_addr + 4 ≤ pde_addr) →
      (s.translate_linear_32 l w u pse).2.2 = 0 ∧
      (s.translate_linear_32 l w u pse).1.read_physical_32 pde_addr =
        pde ||| 0x20 ∧
      (s.translate_linear_32 l w u pse).1.read_physical_32 pte_addr =
        (pte ||| 0x20) ||| (if w then 0x40 else 0)) ∧
    (∀ (s s1 : MemoryAccessor) (l : Nat) (w u : Bool)
      (pdpte_addr pdpte pde_addr pde pte_addr pte : Nat),
      pdpte_addr = ((s.control_registers 3 &&& 0xFFFFF000) +
        ((l >>> 30) &&& 0x3) * 8) &&& 0xFFFFFFFF →
      pdpte = s.read_physical_64 pdpte_addr →
      pdpte &&& 0x1 ≠ 0 → ¬(u = true ∧ pdpte &&& 0x4 = 0) →
      ¬(w = true ∧ pdpte &&& 0x2 = 0) →
      s1 = s.write_physical_64 pdpte_addr (pdpte ||| (1 <<< 5)) →
      pde_addr = ((pdpte &&& 0xFFFFFF000) + ((l >>> 21) &&& 0x1FF) * 8) &&&
        0xFFFFFFFF →
      pde = s1.read_physical_64 pde_addr →
      pde &&& 0x1 ≠ 0 → ¬(u = true ∧ pde &&& 0x4 = 0) →
      ¬(w = true ∧ pde &&& 0x2 = 0) → pde &&& (1 <<< 7) = 0 →
      pte_addr = ((pde &&& 0xFFFFFF000) + ((l >>> 12) &&& 0x1FF) * 8) &&&
        0xFFFFFFFF →
      pte = s1.read_physical_64 pte_addr →
      pte &&& 0x1 ≠ 0 → ¬(u = true ∧ pte &&& 0x4 = 0) →
      ¬(w = true ∧ pte &&& 0x2 = 0) →
      (pdpte_addr + 8 ≤ pde_addr ∨ pde_addr + 8 ≤ pdpte_addr) →
      (pdpte_addr + 8 ≤ pte_addr ∨ pte_addr + 8 ≤ pdpte_addr) →
      (pde_addr + 8 ≤ pte_addr ∨ pte_addr + 8 ≤ pde_addr) →
      (s.translate_linear_pae l w u).2.2 = 0 ∧
      (s.translate_linear_pae l w u).1.read_physical_64 pdpte_addr =
        pdpte ||| (1 <<< 5) ∧
      (s.translate_linear_pae l w u).1.read_physical_64 pde_addr =
        pde ||| 0x20 ∧
      (s.translate_linear_pae l w u).1.read_physical_64 pte_addr =
        (pte ||| 0x20) ||| (if w then 0x40 else 0)) ∧
    (∀ (s s1 s2 : MemoryAccessor) (l : Nat) (w u : Bool)
      (pml4e_addr pml4e pdpte_addr pdpte pde_addr pde pte_addr pte : Nat),
      pml4e_addr = ((s.control_registers 3 &&& 0xFFFFF000) +
        ((l >>> 39) &&& 0x1FF) * 8) &&& 0xFFFFFFFF →
      pml4e = s.read_physical_64 pml4e_addr →
      pml4e &&& 0x1 ≠ 0 → ¬(u = true ∧ pml4e &&& 0x4 = 0) →
      ¬(w = true ∧ pml4e &&& 0x2 = 0) →
      s1 = s.write_physical_64 pml4e_addr (pml4e ||| (1 <<< 5)) →
      pdpte_addr = ((pml4e &&& 0xFFFFFF000) + ((l >>> 30) &&& 0x1FF) * 8) &&&
        0xFFFFFFFF →
      pdpte = s1.read_physical_64 pdpte_addr →
      pdpte &&& 0x1 ≠ 0 → ¬(u = true ∧ pdpte &&& 0x4 = 0) →
      ¬(w = true ∧ pdpte &&& 0x2 = 0) →
      s2 = s1.write_physical_64 pdpte_addr (pdpte ||| (1 <<< 5)) →
      pdpte &&& (1 <<< 7) = 0 →
      pde_addr = ((pdpte &&& 0xFFFFFF000) + ((l >>> 21) &&& 0x1FF) * 8) &&&
        0xFFFFFFFF →
      pde = s2.read_physical_64 pde_addr →
      pde &&& 0x1 ≠ 0 → ¬(u = true ∧ pde &&& 0x4 = 0) →
      ¬(w = true ∧ pde &&& 0x2 = 0) → pde &&& (1 <<< 7) = 0 →
      pte_addr = ((pde &&& 0xFFFFFF000) + ((l >>> 12) &&& 0x1FF) * 8) &&&
        0xFFFFFFFF →
      pte = s2.read_physical_64 pte_addr →
      pte &&& 0x1 ≠ 0 → ¬(u = true ∧ pte &&& 0x4 = 0) →
      ¬(w = true ∧ pte &&& 0x2 = 0) →
      (pml4e_addr + 8 ≤ pdpte_addr ∨ pdpte_addr + 8 ≤ pml4e_addr) →
      (pml4e_addr + 8 ≤ pde_addr ∨ pde_addr + 8 ≤ pml4e_addr) →
      (pml4e_addr + 8 ≤ pte_addr ∨ pte_addr + 8 ≤ pml4e_addr) →
      (pdpte_addr + 8 ≤ pde_addr ∨ pde_addr + 8 ≤ pdpte_addr) →
      (pdpte_addr + 8 ≤ pte_addr ∨ pte_addr + 8 ≤ pdpte_addr) →
      (pde_addr + 8 ≤ pte_addr ∨ pte_addr + 8 ≤ pde_addr) →
      (s.translate_linear_ia32e l w u).2.2 = 0 ∧
      (s.translate_linear_ia32e l w u).1.read_physical_64 pml4e_addr =
        pml4e ||| (1 <<< 5) ∧
      (s.translate_linear_ia32e l w u).1.read_physical_64 pdpte_addr =
        pdpte ||| (1 <<< 5) ∧
      (s.translate_linear_ia32e l w u).1.read_physical_64 pde_addr =
        pde ||| 0x20 ∧
      (s.translate_linear_ia32e l w u).1.read_physical_64 pte_addr =
        (pte ||| 0x20) ||| (if w then 0x40 else 0)) :=
  ⟨legacy_4k_success, pae_4k_success, ia32e_4k_success⟩

/-- Witness for C5: the repository's own IA-32e test scenario — identity
mapping of linear 0x123000 — succeeds and leaves the accessed bit set in
all four levels. -/
theorem c5_accessed_dirty_writeback_witness :
    (demoIa32e.translate_linear_ia32e 0x123000 false true).2.2 = 0 ∧
    (demoIa32e.translate_linear_ia32e 0x123000 false true).1.read_physical_64
      0x1000 = 0x2007 ||| (1 <<< 5) ∧
    (demoIa32e.translate_linear_ia32e 0x123000 false true).1.read_physical_64
      0x2000 = 0x3007 ||| (1 <<< 5) ∧
    (demoIa32e.translate_linear_ia32e 0x123000 false true).1.read_physical_64
      0x3000 = 0x4007 ||| 0x20 ∧
    (demoIa32e.translate_linear_ia32e 0x123000 false true).1.read_physical_64
      (0x4000 + 0x123 * 8) = (0x123007 ||| 0x20) ||| (if false then 0x40 else 0) :=
  c5_accessed_dirty_writeback.2.2 demoIa32e
    (demoIa32e.write_physical_64 0x1000 (0x2007 ||| (1 <<< 5)))
    ((demoIa32e.write_physical_64 0x1000
      (0x2007 ||| (1 <<< 5))).write_physical_64 0x2000 (0x3007 ||| (1 <<< 5)))
    0x123000 false true 0x1000 0x2007 0x2000 0x3007 0x3000 0x4007
    (0x4000 + 0x123 * 8) 0x123007
    (by decide) (by decide) (by decide) (by decide) (by decide) rfl
    (by decide) (by decide) (by decide) (by decide) (by decide) rfl
    (by decide) (by decide) (by decide) (by decide) (by decide) (by decide)
    (by decide) (by decide) (by decide) (by decide) (by decide) (by decide) (by decide)
    (by decide) (by decide) (by decide) (by decide) (by decide)

end MemoryAccessor
namespace MemoryAccessor

/-- C10.  In the PAE and IA-32e walks the accessed bit of each
already-traversed upper-level entry (PDPTE in PAE; PML4E and PDPTE in
IA-32e) is set and written back before the lower levels are checked, so a
call that faults at a lower level (here: PDE not present) returns with the
backing store already modified: the result state is exactly the
upper-level accessed-write(s) applied to the input state.  The last
conjunct exhibits a concrete faulting `translate_linear` call that changed
a byte of the backing store: a faulting translation is not
side-effect-free. -/
theorem c10_faulting_walk_writes_accessed :
    (∀ (s s1 : MemoryAccessor) (l : Nat) (w u : Bool)
      (pdpte_addr pdpte pde_addr : Nat),
      pdpte_addr = ((s.control_registers 3 &&& 0xFFFFF000) +
        ((l >>> 30) &&& 0x3) * 8) &&& 0xFFFFFFFF →
      pdpte = s.read_physical_64 pdpte_addr →
      pdpte &&& 0x1 ≠ 0 → ¬(u = true ∧ pdpte &&& 0x4 = 0) →
      ¬(w = true ∧ pdpte &&& 0x2 = 0) →
      s1 = s.write_physical_64 pdpte_addr (pdpte ||| (1 <<< 5)) →
      pde_addr = ((pdpte &&& 0xFFFFFF000) + ((l >>> 21) &&& 0x1FF) * 8) &&&
        0xFFFFFFFF →
      s1.read_physical_64 pde_addr &&& 0x1 = 0 →
      s.translate_linear_pae l w u = (s1, l, (0x0E <<< 16) |||
        ((if w then 0b10 else 0) ||| (if u then 0b100 else 0))) ∧
      s1.read_physical_64 pdpte_addr = pdpte ||| (1 <<< 5)) ∧
    (∀ (s s1 s2 : MemoryAccessor) (l : Nat) (w u : Bool)
      (pml4e_addr pml4e pdpte_addr pdpte pde_addr : Nat),
      pml4e_addr = ((s.control_registers 3 &&& 0xFFFFF000) +
        ((l >>> 39) &&& 0x1FF) * 8) &&& 0xFFFFFFFF →
      pml4e = s.read_physical_64 pml4e_addr →
      pml4e &&& 0x1 ≠ 0 → ¬(u = true ∧ pml4e &&& 0x4 = 0) →
      ¬(w = true ∧ pml4e &&& 0x2 = 0) →
      s1 = s.write_physical_64 pml4e_addr (pml4e ||| (1 <<< 5)) →
      pdpte_addr = ((pml4e &&& 0xFFFFFF000) + ((l >>> 30) &&& 0x1FF) * 8) &&&
        0xFFFFFFFF →
      pdpte = s1.read_physical_64 pdpte_addr →
      pdpte &&& 0x1 ≠ 0 → ¬(u = true ∧ pdpte &&& 0x4 = 0) →
      ¬(w = true ∧ pdpte &&& 0x2 = 0) →
      s2 = s1.write_physical_64 pdpte_addr (pdpte ||| (1 <<< 5)) →
      pdpte &&& (1 <<< 7) = 0 →
      pde_addr = ((pdpte &&& 0xFFFFFF000) + ((l >>> 21) &&& 0x1FF) * 8) &&&
        0xFFFFFFFF →
      s2.read_physical_64 pde_addr &&& 0x1 = 0 →
      (pml4e_addr + 8 ≤ pdpte_addr ∨ pdpte_addr + 8 ≤ pml4e_addr) →
      s.translate_linear_ia32e l w u = (s2, l, (0x0E <<< 16) |||
        ((if w then 0b10 else 0) ||| (if u then 0b100 else 0))) ∧
      s2.read_physical_64 pml4e_addr = pml4e ||| (1 <<< 5) ∧
      s2.read_physical_64 pdpte_addr = pdpte ||| (1 <<< 5)) ∧
    ((demoPaeFault.translate_linear 0 false false true 0xFFFFFFFF).2.2 ≠ 0 ∧
      (demoPaeFault.translate_linear 0 false false true 0xFFFFFFFF).1.mem
        0x1000 ≠ demoPaeFault.mem 0x1000) :=
  ⟨pae_fault_after_pdpte_write, ia32e_fault_after_upper_writes,
   by decide, by decide⟩

/-- Witness for C10: the PAE demo state faults at the PDE but has already
written the PDPTE back with its accessed bit set. -/
theorem c10_faulting_walk_writes_accessed_witness :
    demoPaeFault.translate_linear_pae 0 false false =
      (demoPaeFault.write_physical_64 0x1000 (0x2007 ||| (1 <<< 5)), 0,
        (0x0E <<< 16) |||
          ((if false then 0b10 else 0) ||| (if false then 0b100 else 0))) ∧
    (demoPaeFault.write_physical_64 0x1000
        (0x2007 ||| (1 <<< 5))).read_physical_64 0x1000 =
      0x2007 ||| (1 <<< 5) :=
  c10_faulting_walk_writes_accessed.1 demoPaeFault
    (demoPaeFault.write_physical_64 0x1000 (0x2007 ||| (1 <<< 5)))
    0 false false 0x1000 0x2007 0x2000
    (by decide) (by decide) (by decide) (by decide) (by decide) rfl
    (by decide) (by decide)

end MemoryAccessor
lemma and_not_low (c i : Nat) (hc : c < 2 ^ 64) (hi : i ≤ 64) :
    c &&& ((2 ^ (64 - i) - 1) <<< i) = c >>> i <<< i := by
  apply Nat.eq_of_testBit_eq
  intro j
  simp only [Nat.testBit_and, Nat.testBit_shiftLeft, Nat.testBit_shiftRight,
    Nat.testBit_two_pow_sub_one]
  by_cases h1 : i ≤ j
  · simp only [h1, decide_True, Bool.true_and]
    by_cases h2 : j < 64
    · have : j - i < 64 - i := by omega
      simp only [this, decide_True, Bool.and_true]
      rw [Nat.add_sub_cancel' h1]
    · have hj : c.testBit j = false :=
        Nat.testBit_lt_two_pow (lt_of_lt_of_le hc (Nat.pow_le_pow_right
          (by norm_num) (by omega)))
      have hj2 : c.testBit (i + (j - i)) = false :=
        Nat.testBit_lt_two_pow (lt_of_lt_of_le hc (Nat.pow_le_pow_right
          (by norm_num) (by omega)))
      simp [hj, hj2]
  · simp [h1]

namespace MemoryAccessor

lemma fetch_by_size_32 (s : MemoryAccessor) (a : Nat) :
    s.fetch_by_size a 32 = s.fetch a &&& 0xFFFFFFFF := rfl

end MemoryAccessor
namespace MemoryAccessor

/-- GPR write at size 8: the stored pattern keeps the high 56 bits and
takes the low byte from the value. -/
lemma write_by_size_8_gpr (s : MemoryAccessor) (a : Nat) (v : Int)
    (hg : is_gpr_address a) (hreg : s.registers a < 2 ^ 64) :
    (s.write_by_size a v 8).registers a % 2 ^ 8 = toBits64 v % 2 ^ 8 ∧
    (s.write_by_size a v 8).registers a / 2 ^ 8 = s.registers a / 2 ^ 8 := by
  have hra : is_register_address a ∧ a < MAX_REGISTER_ADDRESS := by
    unfold is_register_address MAX_REGISTER_ADDRESS
    unfold is_gpr_address at hg
    omega
  unfold write_by_size
  rw [if_pos hra, if_pos hg]
  dsimp only
  rw [if_pos rfl]
  show (updFn _ a _ a % 2 ^ 8 = _) ∧ (updFn _ a _ a / 2 ^ 8 = _)
  unfold updFn
  rw [if_pos rfl]
  have hm : (0xFFFFFFFFFFFFFF00 : Nat) = (2 ^ (64 - 8) - 1) <<< 8 := by decide
  rw [hm, and_not_low _ 8 hreg (by norm_num), and_ff,
    Nat.shiftLeft_eq, Nat.shiftRight_eq_div_pow,
    or_add_lo _ 8 _ (by omega)]
  constructor <;> omega

/-- GPR write at size 16: the stored pattern keeps the high 48 bits and
takes the low 16 bits from the value. -/
lemma write_by_size_16_gpr (s : MemoryAccessor) (a : Nat) (v : Int)
    (hg : is_gpr_address a) (hreg : s.registers a < 2 ^ 64) :
    (s.write_by_size a v 16).registers a % 2 ^ 16 = toBits64 v % 2 ^ 16 ∧
    (s.write_by_size a v 16).registers a / 2 ^ 16 = s.registers a / 2 ^ 16 := by
  have hra : is_register_address a ∧ a < MAX_REGISTER_ADDRESS := by
    unfold is_register_address MAX_REGISTER_ADDRESS
    unfold is_gpr_address at hg
    omega
  unfold write_by_size
  rw [if_pos hra, if_pos hg]
  dsimp only
  rw [if_neg (by norm_num), if_pos rfl]
  show (updFn _ a _ a % 2 ^ 16 = _) ∧ (updFn _ a _ a / 2 ^ 16 = _)
  unfold updFn
  rw [if_pos rfl]
  have hm : (0xFFFFFFFFFFFF0000 : Nat) = (2 ^ (64 - 16) - 1) <<< 16 := by decide
  have hff : (0xFFFF : Nat) = 2 ^ 16 - 1 := by norm_num
  rw [hm, and_not_low _ 16 hreg (by norm_num), hff,
    Nat.and_pow_two_sub_one_eq_mod, Nat.shiftLeft_eq,
    Nat.shiftRight_eq_div_pow, or_add_lo _ 16 _ (by omega)]
  constructor <;> omega

/-- GPR write at size 32 zero-extends. -/
lemma write_by_size_32_gpr (s : MemoryAccessor) (a : Nat) (v : Int)
    (hg : is_gpr_address a) :
    (s.write_by_size a v 32).registers a = toBits64 v % 2 ^ 32 := by
  have hra : is_register_address a ∧ a < MAX_REGISTER_ADDRESS := by
    unfold is_register_address MAX_REGISTER_ADDRESS
    unfold is_gpr_address at hg
    omega
  unfold write_by_size
  rw [if_pos hra, if_pos hg]
  dsimp only
  rw [if_neg (by norm_num), if_neg (by norm_num), if_pos rfl]
  show updFn _ a _ a = _
  unfold updFn
  rw [if_pos rfl, and_ffffffff]

/-- Non-GPR register write stores the full value at every size. -/
lemma write_by_size_non_gpr (s : MemoryAccessor) (a : Nat) (v : Int)
    (size : Nat) (hra : is_register_address a ∧ a < MAX_REGISTER_ADDRESS)
    (hg : ¬ is_gpr_address a) :
    (s.write_by_size a v size).registers a = toBits64 v := by
  unfold write_by_size
  rw [if_pos hra, if_neg hg]
  show updFn _ a _ a = _
  unfold updFn
  rw [if_pos rfl]

end MemoryAccessor
namespace MemoryAccessor

/-- The claimed concrete scenario: a 32-bit write of 0x12345678 followed
by a 16-bit write of 0xABCD to a GPR slot reads back 0x1234ABCD at
width 32. -/
lemma gpr_write_example (s : MemoryAccessor) :
    ((s.write_by_size 0 0x12345678 32).write_by_size 0 0xABCD 16).fetch_by_size
      0 32 = 0x1234ABCD := by
  have h1 := write_by_size_32_gpr s 0 0x12345678 (by decide)
  have hlt : (s.write_by_size 0 0x12345678 32).registers 0 < 2 ^ 64 := by
    rw [h1]; decide
  have h2 := write_by_size_16_gpr (s.write_by_size 0 0x12345678 32) 0 0xABCD
    (by decide) hlt
  have hdm := Nat.div_add_mod
    (((s.write_by_size 0 0x12345678 32).write_by_size 0 0xABCD 16).registers 0)
    (2 ^ 16)
  have e1 : toBits64 0xABCD % 2 ^ 16 = 0xABCD := by decide
  have e2 : toBits64 0x12345678 % 2 ^ 32 / 2 ^ 16 = 0x1234 := by decide
  have m1 : ((s.write_by_size 0 0x12345678 32).write_by_size 0 0xABCD
      16).registers 0 % 2 ^ 16 = 0xABCD := by rw [h2.1, e1]
  have m2 : ((s.write_by_size 0 0x12345678 32).write_by_size 0 0xABCD
      16).registers 0 / 2 ^ 16 = 0x1234 := by rw [h2.2, h1, e2]
  have hv : ((s.write_by_size 0 0x12345678 32).write_by_size 0 0xABCD
      16).registers 0 = 0x1234ABCD := by omega
  unfold fetch_by_size fetch
  rw [if_pos (by decide : is_register_address 0 ∧ 0 < MAX_REGISTER_ADDRESS)]
  rw [if_neg (by norm_num), if_neg (by norm_num), if_pos rfl, hv]
  decide

/-- C6.  Sized register writes follow x86 GPR semantics: an 8- or 16-bit
write to a GPR slot replaces only the low 8 or 16 bits of the 64-bit
container and preserves all higher bits; a 32-bit write zero-extends
(bits 63:32 become 0); a write of any size to a non-GPR register slot
replaces the full stored value; and the concrete scenario
write 0x12345678@32 then 0xABCD@16 reads back 0x1234ABCD at width 32. -/
theorem c6_sized_register_writes :
    (∀ (s : MemoryAccessor) (a : Nat) (v : Int),
      is_gpr_address a → s.registers a < 2 ^ 64 →
      (s.write_by_size a v 8).registers a % 2 ^ 8 = toBits64 v % 2 ^ 8 ∧
      (s.write_by_size a v 8).registers a / 2 ^ 8 = s.registers a / 2 ^ 8) ∧
    (∀ (s : MemoryAccessor) (a : Nat) (v : Int),
      is_gpr_address a → s.registers a < 2 ^ 64 →
      (s.write_by_size a v 16).registers a % 2 ^ 16 = toBits64 v % 2 ^ 16 ∧
      (s.write_by_size a v 16).registers a / 2 ^ 16 =
        s.registers a / 2 ^ 16) ∧
    (∀ (s : MemoryAccessor) (a : Nat) (v : Int),
      is_gpr_address a →
      (s.write_by_size a v 32).registers a = toBits64 v % 2 ^ 32) ∧
    (∀ (s : MemoryAccessor) (a : Nat) (v : Int) (size : Nat),
      is_register_address a ∧ a < MAX_REGISTER_ADDRESS →
      ¬ is_gpr_address a →
      (s.write_by_size a v size).registers a = toBits64 v) ∧
    (∀ s : MemoryAccessor,
      ((s.write_by_size 0 0x12345678 32).write_by_size 0 0xABCD
        16).fetch_by_size 0 32 = 0x1234ABCD) :=
  ⟨write_by_size_8_gpr, write_by_size_16_gpr, write_by_size_32_gpr,
   write_by_size_non_gpr, gpr_write_example⟩

/-- Witness for C6: an 8-bit write of 0x7F to GPR slot 0 of the fresh
accessor stores 0x7F in the low byte and preserves the (zero) high
bits. -/
theorem c6_sized_register_writes_witness :
    (demoBase.write_by_size 0 0x7F 8).registers 0 % 2 ^ 8 =
      toBits64 0x7F % 2 ^ 8 ∧
    (demoBase.write_by_size 0 0x7F 8).registers 0 / 2 ^ 8 =
      demoBase.registers 0 / 2 ^ 8 :=
  c6_sized_register_writes.1 demoBase 0 0x7F (by decide) (by decide)

/-- C7.  The convenience wrappers operate through the 8-bit-masked
low-byte view: `add` computes `(fetch a &&& 0xFF) + v` and stores it via a
16-bit-sized write (so only the low 8 bits of the fetched value
contribute, and the bits above 16 of a GPR slot are preserved);
`increment`/`decrement` are `add`/`sub` of 1, and `sub a v = add a (-v)`. -/
theorem c7_narrow_arithmetic_wrappers :
    (∀ (s : MemoryAccessor) (a : Nat), s.increment a = s.add a 1) ∧
    (∀ (s : MemoryAccessor) (a : Nat), s.decrement a = s.sub a 1) ∧
    (∀ (s : MemoryAccessor) (a : Nat) (v : Int), s.sub a v = s.add a (-v)) ∧
    (∀ (s : MemoryAccessor) (a : Nat) (v : Int),
      s.add a v = s.write_by_size a (((s.fetch a &&& 0xFF : Nat) : Int) + v) 16) ∧
    (∀ (s : MemoryAccessor) (a : Nat) (v : Int),
      is_gpr_address a → s.registers a < 2 ^ 64 →
      (s.add a v).registers a % 2 ^ 16 =
        toBits64 (((s.fetch a &&& 0xFF : Nat) : Int) + v) % 2 ^ 16 ∧
      (s.add a v).registers a / 2 ^ 16 = s.registers a / 2 ^ 16) :=
  ⟨fun _ _ => rfl, fun _ _ => rfl, fun _ _ _ => rfl, fun _ _ _ => rfl,
   fun s a v hg hreg =>
     write_by_size_16_gpr s a (((s.fetch a &&& 0xFF : Nat) : Int) + v) hg hreg⟩

/-- Witness for C7: incrementing GPR slot 0 of the fresh accessor stores
1 in the low 16 bits and keeps the (zero) upper bits. -/
theorem c7_narrow_arithmetic_wrappers_witness :
    (demoBase.add 0 1).registers 0 % 2 ^ 16 =
      toBits64 (((demoBase.fetch 0 &&& 0xFF : Nat) : Int) + 1) % 2 ^ 16 ∧
    (demoBase.add 0 1).registers 0 / 2 ^ 16 = demoBase.registers 0 / 2 ^ 16 :=
  c7_narrow_arithmetic_wrappers.2.2.2.2 demoBase 0 1 (by decide) (by decide)

end MemoryAccessor

namespace MemoryStream

/-- A byte address strictly below the logical maximum always lands in an
existing page slot. -/
lemma lt_pagesLen (s : MemoryStream) (a : Nat)
    (h : a < s.logical_max_memory_size) : a >>> PAGE_SHIFT < s.pagesLen := by
  unfold pagesLen
  rw [if_neg (by omega)]
  simp only [PAGE_SHIFT, PAGE_SIZE, Nat.shiftRight_eq_div_pow]
  norm_num
  omega

lemma ensure_capacity_fields (s : MemoryStream) (r : Nat) :
    (s.ensure_capacity r).bytes = s.bytes ∧
    (s.ensure_capacity r).offset = s.offset ∧
    (s.ensure_capacity r).physical_max_memory_size =
      s.physical_max_memory_size ∧
    (s.ensure_capacity r).swap_size = s.swap_size ∧
    s.size ≤ (s.ensure_capacity r).size := by
  unfold ensure_capacity
  by_cases h1 : r < s.size
  · rw [if_pos h1]; exact ⟨rfl, rfl, rfl, rfl, le_refl _⟩
  · rw [if_neg h1]
    by_cases h2 : s.logical_max_memory_size ≤ r
    · rw [if_pos h2]; exact ⟨rfl, rfl, rfl, rfl, le_refl _⟩
    · rw [if_neg h2]
      refine ⟨rfl, rfl, rfl, rfl, ?_⟩
      show s.size ≤ min s.logical_max_memory_size _
      simp only [EXPANSION_CHUNK_SIZE]
      omega

lemma ensure_capacity_lt_size (s : MemoryStream) (r : Nat)
    (h : r < s.logical_max_memory_size) : r < (s.ensure_capacity r).size := by
  unfold ensure_capacity
  by_cases h1 : r < s.size
  · rw [if_pos h1]; exact h1
  · rw [if_neg h1, if_neg (by omega)]
    show r < min s.logical_max_memory_size _
    simp only [EXPANSION_CHUNK_SIZE]
    omega

lemma logical_max_eq_of (s t : MemoryStream)
    (h1 : t.physical_max_memory_size = s.physical_max_memory_size)
    (h2 : t.swap_size = s.swap_size) :
    t.logical_max_memory_size = s.logical_max_memory_size := by
  unfold logical_max_memory_size
  rw [h1, h2]

lemma ensure_capacity_logical_max (s : MemoryStream) (r : Nat) :
    (s.ensure_capacity r).logical_max_memory_size =
      s.logical_max_memory_size :=
  logical_max_eq_of s _ (ensure_capacity_fields s r).2.2.1
    (ensure_capacity_fields s r).2.2.2.1

lemma set_offset_spec (s : MemoryStream) (o : Nat)
    (h : o < s.logical_max_memory_size) :
    (s.set_offset o).2 = true ∧
    (s.set_offset o).1.bytes = s.bytes ∧
    (s.set_offset o).1.offset = o ∧
    s.size ≤ (s.set_offset o).1.size ∧
    o < (s.set_offset o).1.size ∧
    (s.set_offset o).1.physical_max_memory_size =
      s.physical_max_memory_size ∧
    (s.set_offset o).1.swap_size = s.swap_size := by
  unfold set_offset
  rw [if_neg (by omega)]
  by_cases h1 : s.size ≤ o
  · rw [if_pos h1]
    have hf := ensure_capacity_fields s o
    have hl := ensure_capacity_lt_size s o h
    exact ⟨rfl, hf.1, rfl, hf.2.2.2.2, hl, hf.2.2.1, hf.2.2.2.1⟩
  · rw [if_neg h1]
    exact ⟨rfl, rfl, rfl, le_refl _, show o < s.size by omega, rfl, rfl⟩

/-- Characterization of the `write_slice_at` page loop: when the whole
target range fits below the logical maximum the loop never hits the
page-table break, and it overwrites exactly `[addr, last)` with the
corresponding slice of `data`, leaving every other field alone. -/
lemma write_slice_go_spec :
    ∀ (fuel : Nat) (s : MemoryStream) (addr src last : Nat) (data : List Nat),
      last - addr ≤ fuel →
      last ≤ s.logical_max_memory_size →
      (∀ p, (write_slice_go s fuel addr src last data).bytes p =
          if addr ≤ p ∧ p < last then data.getD (src + (p - addr)) 0
          else s.bytes p) ∧
        (write_slice_go s fuel addr src last data).offset = s.offset ∧
        (write_slice_go s fuel addr src last data).size = s.size ∧
        (write_slice_go s fuel addr src last data).physical_max_memory_size =
          s.physical_max_memory_size ∧
        (write_slice_go s fuel addr src last data).swap_size = s.swap_size := by
  intro fuel
  induction fuel with
  | zero =>
    intro s addr src last data hfuel hlast
    simp only [write_slice_go]
    exact ⟨fun p => (if_neg (by omega)).symm, trivial, trivial, trivial,
      trivial⟩
  | succ n ih =>
    intro s addr src last data hfuel hlast
    simp only [write_slice_go]
    by_cases hstop : last ≤ addr
    · rw [if_pos hstop]
      exact ⟨fun p => (if_neg (by omega)).symm, rfl, rfl, rfl, rfl⟩
    · rw [if_neg hstop]
      have hpl : addr >>> PAGE_SHIFT < s.pagesLen :=
        lt_pagesLen s addr (by omega)
      rw [if_neg (by omega)]
      have hpo : addr &&& PAGE_MASK < PAGE_SIZE := by
        have := Nat.and_le_right (n := addr) (m := PAGE_MASK)
        simp only [PAGE_MASK, PAGE_SIZE] at *
        omega
      have hck1 : 1 ≤ min (last - addr) (PAGE_SIZE - (addr &&& PAGE_MASK)) := by
        omega
      have hck2 : min (last - addr) (PAGE_SIZE - (addr &&& PAGE_MASK)) ≤
          last - addr := Nat.min_le_left _ _
      have hrec := ih
        { s with bytes := fun p =>
            if addr ≤ p ∧
                p < addr + min (last - addr) (PAGE_SIZE - (addr &&& PAGE_MASK))
              then data.getD (src + (p - addr)) 0
              else s.bytes p }
        (addr + min (last - addr) (PAGE_SIZE - (addr &&& PAGE_MASK)))
        (src + min (last - addr) (PAGE_SIZE - (addr &&& PAGE_MASK)))
        last data (by omega) (by exact hlast)
      refine ⟨fun p => ?_, hrec.2.1, hrec.2.2.1, hrec.2.2.2.1, hrec.2.2.2.2⟩
      rw [hrec.1 p]
      by_cases h1 : addr + min (last - addr) (PAGE_SIZE - (addr &&& PAGE_MASK))
          ≤ p ∧ p < last
      · rw [if_pos h1, if_pos (by omega)]
        congr 1
        omega
      · rw [if_neg h1]
        show (if addr ≤ p ∧
            p < addr + min (last - addr) (PAGE_SIZE - (addr &&& PAGE_MASK))
          then data.getD (src + (p - addr)) 0 else s.bytes p) = _
        by_cases h2 : addr ≤ p ∧
            p < addr + min (last - addr) (PAGE_SIZE - (addr &&& PAGE_MASK))
        · rw [if_pos h2, if_pos (by omega)]
        · rw [if_neg h2, if_neg (by omega)]

/-- `write_slice_at` with a nonempty payload that fits below the logical
maximum: it overwrites exactly the target range, keeps the cursor, never
shrinks `size`, and covers the end of the range whenever that end is
strictly below the logical maximum. -/
lemma write_slice_at_spec (s : MemoryStream) (address : Nat) (data : List Nat)
    (h0 : 0 < data.length)
    (hend : address + data.length ≤ s.logical_max_memory_size) :
    (∀ p, (s.write_slice_at address data).bytes p =
        if address ≤ p ∧ p < address + data.length then
          data.getD (p - address) 0
        else s.bytes p) ∧
      (s.write_slice_at address data).offset = s.offset ∧
      s.size ≤ (s.write_slice_at address data).size ∧
      (address + data.length < s.logical_max_memory_size →
        address + data.length < (s.write_slice_at address data).size) ∧
      (s.write_slice_at address data).physical_max_memory_size =
        s.physical_max_memory_size ∧
      (s.write_slice_at address data).swap_size = s.swap_size := by
  unfold write_slice_at
  lift_lets
  extract_lets wl e s1
  have hwl : wl = data.length := by
    show min data.length (s.logical_max_memory_size - address) = data.length
    omega
  have he : e = address + data.length := by
    show address + wl = address + data.length
    rw [hwl]
  have hs1d : s1 = if s.size ≤ e then s.ensure_capacity e else s := rfl
  have hs1b : s1.bytes = s.bytes := by
    rw [hs1d]
    by_cases h : s.size ≤ e
    · rw [if_pos h]; exact (ensure_capacity_fields s e).1
    · rw [if_neg h]
  have hs1o : s1.offset = s.offset := by
    rw [hs1d]
    by_cases h : s.size ≤ e
    · rw [if_pos h]; exact (ensure_capacity_fields s e).2.1
    · rw [if_neg h]
  have hs1p : s1.physical_max_memory_size = s.physical_max_memory_size := by
    rw [hs1d]
    by_cases h : s.size ≤ e
    · rw [if_pos h]; exact (ensure_capacity_fields s e).2.2.1
    · rw [if_neg h]
  have hs1w : s1.swap_size = s.swap_size := by
    rw [hs1d]
    by_cases h : s.size ≤ e
    · rw [if_pos h]; exact (ensure_capacity_fields s e).2.2.2.1
    · rw [if_neg h]
  have hs1sz : s.size ≤ s1.size := by
    rw [hs1d]
    by_cases h : s.size ≤ e
    · rw [if_pos h]; exact (ensure_capacity_fields s e).2.2.2.2
    · rw [if_neg h]
  have hs1L : s1.logical_max_memory_size = s.logical_max_memory_size :=
    logical_max_eq_of s s1 hs1p hs1w
  have hs1cov : address + data.length < s.logical_max_memory_size →
      address + data.length < s1.size := by
    intro hlt
    rw [hs1d]
    by_cases h : s.size ≤ e
    · rw [if_pos h, ← he]
      exact ensure_capacity_lt_size s e (by omega)
    · rw [if_neg h]; omega
  rw [if_neg (by omega), if_neg (by omega),
    if_neg (show ¬ wl = 0 by omega), hwl]
  have hgo := write_slice_go_spec data.length s1 address 0
    (address + data.length) data (by omega) (by rw [hs1L]; exact hend)
  refine ⟨fun p => ?_, ?_, ?_, ?_, ?_, ?_⟩
  · rw [hgo.1 p, hs1b]
    simp only [Nat.zero_add]
  · rw [hgo.2.1, hs1o]
  · rw [hgo.2.2.1]; exact hs1sz
  · intro hlt; rw [hgo.2.2.1]; exact hs1cov hlt
  · rw [hgo.2.2.2.1, hs1p]
  · rw [hgo.2.2.2.2, hs1w]

/-- Characterization of the `read_slice_at` page loop against an intended
content function `g`: if the live bytes agree with `g` on the range and
`g` is zero wherever the range runs at or above `size`, the loop returns
the `g`-image of the range. -/
lemma read_slice_go_eq (s : MemoryStream) (g : Nat → Nat) :
    ∀ (fuel addr n : Nat), n ≤ fuel →
      addr + n ≤ s.logical_max_memory_size →
      (∀ p, addr ≤ p → p < addr + n → s.bytes p = g p) →
      (∀ p, addr ≤ p → p < addr + n → s.size ≤ p → g p = 0) →
      read_slice_go s fuel addr n =
        (List.range n).map fun i => g (addr + i) := by
  intro fuel
  induction fuel with
  | zero =>
    intro addr n hf hL hb hz
    have hn : n = 0 := by omega
    subst hn
    simp [read_slice_go]
  | succ m ih =>
    intro addr n hf hL hb hz
    simp only [read_slice_go]
    by_cases hn : n = 0
    · rw [if_pos hn]; subst hn; simp
    · rw [if_neg hn]
      have hpom : addr &&& PAGE_MASK < PAGE_SIZE := by
        have := Nat.and_le_right (n := addr) (m := PAGE_MASK)
        simp only [PAGE_MASK, PAGE_SIZE] at *
        omega
      set c := min n (PAGE_SIZE - (addr &&& PAGE_MASK)) with hcd
      have hc1 : 1 ≤ c ∧ c ≤ n := by rw [hcd]; omega
      have hplt : addr >>> PAGE_SHIFT < s.pagesLen :=
        lt_pagesLen s addr (by omega)
      have hsplit : ((List.range n).map fun i => g (addr + i)) =
          (((List.range c).map fun i => g (addr + i)) ++
            ((List.range (n - c)).map fun i => g (addr + c + i))) := by
        conv_lhs => rw [show n = c + (n - c) by omega]
        rw [List.range_add, List.map_append, List.map_map]
        congr 1
        apply List.map_congr_left
        intro i _
        simp only [Function.comp]
        congr 1
        omega
      rw [hsplit]
      congr 1
      · by_cases hin : addr >>> PAGE_SHIFT < s.pagesLen ∧ addr < s.size
        · rw [if_pos hin]
          apply List.map_congr_left
          intro i hi
          simp only [List.mem_range] at hi
          exact hb (addr + i) (by omega) (by omega)
        · rw [if_neg hin]
          have haddr : s.size ≤ addr := by
            rcases Nat.lt_or_ge addr s.size with h | h
            · exact absurd ⟨hplt, h⟩ hin
            · exact h
          symm
          rw [List.eq_replicate_iff]
          refine ⟨by simp, ?_⟩
          intro b hbmem
          simp only [List.mem_map, List.mem_range] at hbmem
          obtain ⟨i, hi, rfl⟩ := hbmem
          exact hz (addr + i) (by omega) (by omega) (by omega)
      · exact ih (addr + c) (n - c) (by omega) (by omega)
          (fun p h1 h2 => hb p (by omega) (by omega))
          (fun p h1 h2 h3 => hz p (by omega) (by omega) h3)

lemma read_slice_at_eq (s : MemoryStream) (g : Nat → Nat) (address n : Nat)
    (hL : address + n ≤ s.logical_max_memory_size)
    (hb : ∀ p, address ≤ p → p < address + n → s.bytes p = g p)
    (hz : ∀ p, address ≤ p → p < address + n → s.size ≤ p → g p = 0) :
    s.read_slice_at address n = (List.range n).map fun i => g (address + i) :=
  read_slice_go_eq s g n address n (le_refl n) hL hb hz

/-- Cursor-based `write` with a nonempty payload whose end stays strictly
below the logical maximum: nothing is clamped, the payload overwrites
exactly `[offset, offset+len)`, the cursor advances by `len`, and the new
`size` strictly covers the end of the written range. -/
lemma write_spec (s : MemoryStream) (value : List Nat)
    (h0 : 0 < value.length)
    (h : s.offset + value.length < s.logical_max_memory_size) :
    (∀ p, (s.write value).bytes p =
        if s.offset ≤ p ∧ p < s.offset + value.length then
          value.getD (p - s.offset) 0
        else s.bytes p) ∧
      (s.write value).offset = s.offset + value.length ∧
      s.offset + value.length < (s.write value).size ∧
      (s.write value).physical_max_memory_size =
        s.physical_max_memory_size ∧
      (s.write value).swap_size = s.swap_size := by
  unfold write
  lift_lets
  extract_lets wl eo s1 s2
  have hwl : wl = value.length := by
    show min value.length (s.logical_max_memory_size - s.offset) =
      value.length
    omega
  have heo : eo = s.offset + wl := rfl
  have hs1d : s1 = if s.size ≤ eo then s.ensure_capacity eo else s := rfl
  have hs1b : s1.bytes = s.bytes := by
    rw [hs1d]
    by_cases hc : s.size ≤ eo
    · rw [if_pos hc]; exact (ensure_capacity_fields s eo).1
    · rw [if_neg hc]
  have hs1o : s1.offset = s.offset := by
    rw [hs1d]
    by_cases hc : s.size ≤ eo
    · rw [if_pos hc]; exact (ensure_capacity_fields s eo).2.1
    · rw [if_neg hc]
  have hs1p : s1.physical_max_memory_size = s.physical_max_memory_size := by
    rw [hs1d]
    by_cases hc : s.size ≤ eo
    · rw [if_pos hc]; exact (ensure_capacity_fields s eo).2.2.1
    · rw [if_neg hc]
  have hs1w : s1.swap_size = s.swap_size := by
    rw [hs1d]
    by_cases hc : s.size ≤ eo
    · rw [if_pos hc]; exact (ensure_capacity_fields s eo).2.2.2.1
    · rw [if_neg hc]
  have hs1L : s1.logical_max_memory_size = s.logical_max_memory_size :=
    logical_max_eq_of s s1 hs1p hs1w
  have htake : value.take wl = value := by
    rw [hwl]; exact List.take_length value
  have hs2d : s2 = s1.write_slice_at s.offset value := by
    show s1.write_slice_at s.offset (value.take wl) = _
    rw [htake]
  have hws := write_slice_at_spec s1 s.offset value h0
    (by rw [hs1L]; omega)
  rw [if_neg (by omega), if_neg (by omega)]
  refine ⟨fun p => ?_, ?_, ?_, ?_, ?_⟩
  · show s2.bytes p = _
    rw [hs2d, hws.1 p, hs1b]
  · show s.offset + wl = s.offset + value.length
    rw [hwl]
  · show s.offset + value.length < s2.size
    rw [hs2d]
    exact hws.2.2.2.1 (by rw [hs1L]; omega)
  · show s2.physical_max_memory_size = s.physical_max_memory_size
    rw [hs2d, hws.2.2.2.2.1, hs1p]
  · show s2.swap_size = s.swap_size
    rw [hs2d, hws.2.2.2.2.2, hs1w]

lemma map_getD_range (l : List Nat) :
    ((List.range l.length).map fun i => l.getD i 0) = l := by
  apply List.ext_getElem
  · simp
  · intro i h1 h2
    simp only [List.getElem_map, List.getElem_range]
    rw [List.getD_eq_getElem?_getD, List.getElem?_eq_getElem h2]
    rfl

/-- C9 counterexample.  As literally stated — for every starting offset
within the logical maximum and EVERY byte sequence — the round-trip fails:
writing through the cursor clamps the payload to the logical maximum and
reading back returns zeros for the part beyond `size`, so at `o = 9` in a
10-byte logical space the sequence `[7, 7]` reads back as `[7, 0]`. -/
theorem c9_write_read_roundtrip_cex :
    ¬ (∀ (σ : MemoryStream) (o : Nat) (b : List Nat),
        o < σ.logical_max_memory_size →
        ((((σ.set_offset o).1.write b).set_offset o).1.read b.length).1 =
          b) := by
  intro h
  have hc := h (MemoryStream.new 5 10 0) 9 [7, 7] (by decide)
  exact absurd hc (by decide)

/-- C9 (amended).  For every stream state, starting offset `o` and byte
sequence `b` whose end `o + len(b)` lies strictly below the logical
maximum, setting the cursor to `o`, writing `b`, setting the cursor back
to `o` and reading `len(b)` bytes returns exactly `b`. -/
theorem c9_write_read_roundtrip (σ : MemoryStream) (o : Nat) (b : List Nat)
    (h : o + b.length < σ.logical_max_memory_size) :
    ((((σ.set_offset o).1.write b).set_offset o).1.read b.length).1 = b := by
  by_cases hb0 : b.length = 0
  · have hbe : b = [] := List.length_eq_zero.mp hb0
    subst hbe
    rfl
  · have h0 : 0 < b.length := Nat.pos_of_ne_zero hb0
    have hoL : o < σ.logical_max_memory_size := by omega
    obtain ⟨-, hso1b, hso1o, hso1sz, hso1lt, hso1p, hso1w⟩ :=
      set_offset_spec σ o hoL
    set s1 := (σ.set_offset o).1 with hs1
    have hs1L : s1.logical_max_memory_size = σ.logical_max_memory_size :=
      logical_max_eq_of σ s1 hso1p hso1w
    have hw := write_spec s1 b h0 (by rw [hso1o, hs1L]; omega)
    set s2 := s1.write b with hs2
    have hs2L : s2.logical_max_memory_size = σ.logical_max_memory_size :=
      (logical_max_eq_of s1 s2 hw.2.2.2.1 hw.2.2.2.2).trans hs1L
    have hoL2 : o < s2.logical_max_memory_size := by rw [hs2L]; omega
    obtain ⟨-, hso2b, hso2o, hso2sz, hso2lt, hso2p, hso2w⟩ :=
      set_offset_spec s2 o hoL2
    set s3 := (s2.set_offset o).1 with hs3
    have hs3L : s3.logical_max_memory_size = σ.logical_max_memory_size :=
      (logical_max_eq_of s2 s3 hso2p hso2w).trans hs2L
    have hwsz : o + b.length < s2.size := by
      have := hw.2.2.1
      rw [hso1o] at this
      exact this
    have hs3sz : o + b.length < s3.size := by omega
    unfold read
    rw [if_neg hb0]
    lift_lets
    extract_lets reo rs1 rav ral rpart
    have hreo : reo = s3.offset + b.length := rfl
    have hnen : ¬ s3.size < reo := by rw [hreo, hso2o]; omega
    have hrs1 : rs1 = s3 := by
      show (if s3.size < reo then s3.ensure_capacity reo else s3) = s3
      rw [if_neg hnen]
    have hral : ral = b.length := by
      show min b.length rav = b.length
      have : rav = rs1.size - s3.offset := rfl
      rw [this, hrs1, hso2o] at *
      omega
    show rpart ++ List.replicate (b.length - ral) 0 = b
    rw [hral, Nat.sub_self, List.replicate_zero, List.append_nil]
    show (if 0 < ral then rs1.read_slice_at s3.offset ral else []) = b
    rw [if_pos (by rw [hral]; omega), hrs1, hral, hso2o]
    rw [read_slice_at_eq s3 (fun p => b.getD (p - o) 0) o b.length
      (by rw [hs3L]; omega)
      (fun p h1 h2 => by
        rw [hso2b]
        have hw1 := hw.1
        rw [hso1o] at hw1
        rw [hw1 p, if_pos ⟨h1, h2⟩])
      (fun p h1 h2 h3 => absurd h3 (by omega))]
    have hcg : ((List.range b.length).map fun i => b.getD (o + i - o) 0) =
        ((List.range b.length).map fun i => b.getD i 0) :=
      List.map_congr_left (fun i _ => by congr 1; omega)
    rw [hcg, map_getD_range]

lemma getD_map_range (c : Nat) (h : Nat → Nat) (i : Nat) (hi : i < c) :
    ((List.range c).map h).getD i 0 = h i := by
  rw [List.getD_eq_getElem?_getD, List.getElem?_eq_getElem (by simp [hi])]
  simp

/-- Invariant argument for the front-to-back copy loop: with the
destination range disjoint from the not-yet-read part of the source range
(`dest < src` or `src + ms ≤ dest`), the loop extends the copied window
`[dest, dest+o)` to the full `[dest, dest+ms)` image of the original
content `f`. -/
lemma copy_forward_go_spec (f : Nat → Nat) (src dest ms L0 sz0 : Nat)
    (hz0 : ∀ p, sz0 ≤ p → f p = 0)
    (hsrc : src + ms ≤ L0) (hdest : dest + ms ≤ L0)
    (hdisj : dest < src ∨ src + ms ≤ dest) :
    ∀ (fuel : Nat) (s : MemoryStream) (o : Nat),
      ms - o ≤ fuel → o ≤ ms →
      s.logical_max_memory_size = L0 →
      sz0 ≤ s.size →
      (∀ p, s.bytes p =
        if dest ≤ p ∧ p < dest + o then f (src + (p - dest)) else f p) →
      ∀ p, (copy_forward_go s fuel src dest ms o).bytes p =
        if dest ≤ p ∧ p < dest + ms then f (src + (p - dest)) else f p := by
  intro fuel
  induction fuel with
  | zero =>
    intro s o hf ho hL hsz hcur p
    have hom : o = ms := by omega
    subst hom
    simp only [copy_forward_go]
    exact hcur p
  | succ n ih =>
    intro s o hf ho hL hsz hcur p
    simp only [copy_forward_go]
    by_cases hstop : ms ≤ o
    · rw [if_pos hstop]
      have hom : o = ms := by omega
      subst hom
      exact hcur p
    · rw [if_neg hstop]
      set c := min 65536 (ms - o) with hcd
      have hc1 : 1 ≤ c ∧ c ≤ ms - o := by rw [hcd]; omega
      have hbuf : s.read_slice_at (src + o) c =
          (List.range c).map fun i => f (src + o + i) := by
        apply read_slice_at_eq
        · rw [hL]; omega
        · intro q h1 h2
          have hq : ¬ (dest ≤ q ∧ q < dest + o) := by
            rcases hdisj with hd | hd <;> omega
          rw [hcur q, if_neg hq]
        · intro q h1 h2 h3
          exact hz0 q (by omega)
      have hbl : ((List.range c).map fun i => f (src + o + i)).length = c := by
        simp
      have hws := write_slice_at_spec s (dest + o)
        ((List.range c).map fun i => f (src + o + i))
        (by rw [hbl]; omega) (by rw [hbl, hL]; omega)
      rw [hbuf]
      have hws1 := hws.1
      rw [hbl] at hws1
      refine ih (s.write_slice_at (dest + o)
          ((List.range c).map fun i => f (src + o + i))) (o + c)
        (by omega) (by omega)
        ((logical_max_eq_of s _ hws.2.2.2.2.1 hws.2.2.2.2.2).trans hL)
        (le_trans hsz hws.2.2.1) (fun q => ?_) p
      rw [hws1 q]
      by_cases hq : dest + o ≤ q ∧ q < dest + o + c
      · rw [if_pos hq, getD_map_range c _ _ (by omega), if_pos (by omega)]
        show f (src + o + (q - (dest + o))) = f (src + (q - dest))
        congr 1
        omega
      · rw [if_neg hq, hcur q]
        by_cases hq2 : dest ≤ q ∧ q < dest + o
        · rw [if_pos hq2, if_pos (by omega)]
        · rw [if_neg hq2, if_neg (by omega)]

/-- Invariant argument for the back-to-front copy loop used on
overlapping forward copies (`src < dest`): the loop extends the copied
window `[dest+remaining, dest+ms)` down to the full `[dest, dest+ms)`
image of the original content `f`. -/
lemma copy_backward_go_spec (f : Nat → Nat) (src dest ms L0 sz0 : Nat)
    (hz0 : ∀ p, sz0 ≤ p → f p = 0)
    (hdest : dest + ms ≤ L0)
    (hlt : src < dest) :
    ∀ (fuel : Nat) (s : MemoryStream) (r : Nat),
      r ≤ fuel → r ≤ ms →
      s.logical_max_memory_size = L0 →
      sz0 ≤ s.size →
      (∀ p, s.bytes p =
        if dest + r ≤ p ∧ p < dest + ms then f (src + (p - dest)) else f p) →
      ∀ p, (copy_backward_go s fuel src dest r).bytes p =
        if dest ≤ p ∧ p < dest + ms then f (src + (p - dest)) else f p := by
  intro fuel
  induction fuel with
  | zero =>
    intro s r hf hr hL hsz hcur p
    have hr0 : r = 0 := by omega
    subst hr0
    simp only [copy_backward_go]
    rw [hcur p, Nat.add_zero]
  | succ n ih =>
    intro s r hf hr hL hsz hcur p
    simp only [copy_backward_go]
    by_cases hstop : r = 0
    · rw [if_pos hstop]
      subst hstop
      rw [hcur p, Nat.add_zero]
    · rw [if_neg hstop]
      set c := min 65536 r with hcd
      have hc1 : 1 ≤ c ∧ c ≤ r := by rw [hcd]; omega
      have hbuf : s.read_slice_at (src + (r - c)) c =
          (List.range c).map fun i => f (src + (r - c) + i) := by
        apply read_slice_at_eq
        · rw [hL]; omega
        · intro q h1 h2
          rw [hcur q, if_neg (by omega)]
        · intro q h1 h2 h3
          exact hz0 q (by omega)
      have hbl : ((List.range c).map fun i =>
          f (src + (r - c) + i)).length = c := by simp
      have hws := write_slice_at_spec s (dest + (r - c))
        ((List.range c).map fun i => f (src + (r - c) + i))
        (by rw [hbl]; omega) (by rw [hbl, hL]; omega)
      rw [hbuf]
      have hws1 := hws.1
      rw [hbl] at hws1
      refine ih (s.write_slice_at (dest + (r - c))
          ((List.range c).map fun i => f (src + (r - c) + i))) (r - c)
        (by omega) (by omega)
        ((logical_max_eq_of s _ hws.2.2.2.2.1 hws.2.2.2.2.2).trans hL)
        (le_trans hsz hws.2.2.1) (fun q => ?_) p
      rw [hws1 q]
      by_cases hq : dest + (r - c) ≤ q ∧ q < dest + (r - c) + c
      · rw [if_pos hq, getD_map_range c _ _ (by omega), if_pos (by omega)]
        show f (src + (r - c) + (q - (dest + (r - c)))) = f (src + (q - dest))
        congr 1
        omega
      · rw [if_neg hq, hcur q]
        by_cases hq2 : dest + r ≤ q ∧ q < dest + ms
        · rw [if_pos hq2, if_pos (by omega)]
        · rw [if_neg hq2, if_neg (by omega)]

/-- C8 counterexample.  As literally stated — for all source/destination
ranges lying within the logical maximum — `copy_internal` does not
implement a byte-by-byte memmove: a cursor `write` whose end hits the
logical maximum leaves stored bytes at and above `size` (here `size` is
stuck at 5 while bytes 0..9 are stored), and the copy loop's
`read_slice_at` zero-fills any chunk starting at or above `size`, so
copying one byte from offset 9 to offset 0 stores 0 where the memmove
reference stores the source byte 10. -/
theorem c8_copy_internal_memmove_cex :
    ¬ (∀ (σ : MemoryStream) (src dest len : Nat),
        src + len ≤ σ.logical_max_memory_size →
        dest + len ≤ σ.logical_max_memory_size →
        ∀ p, (σ.copy_internal src dest len).bytes p =
          if dest ≤ p ∧ p < dest + len then σ.bytes (src + (p - dest))
          else σ.bytes p) := by
  intro h
  have hc := h ((MemoryStream.new 5 10 0).write
    [1, 2, 3, 4, 5, 6, 7, 8, 9, 10]) 9 0 1 (by decide) (by decide) 0
  exact absurd hc (by decide)

/-- C8 (amended).  On any stream state whose bytes at and above `size`
are all zero (which rules out the stores hidden by a failed capacity
growth), `copy_internal src dest len` with both ranges within the logical
maximum realizes the byte-by-byte memmove: every destination byte
receives the value the corresponding source byte had before the copy, and
all other bytes are unchanged — including for overlapping forward ranges
`src < dest < src + len`, which take the chunked back-to-front path. -/
theorem c8_copy_internal_memmove (σ : MemoryStream) (src dest len : Nat)
    (hinv : ∀ p, σ.size ≤ p → σ.bytes p = 0)
    (hsrc : src + len ≤ σ.logical_max_memory_size)
    (hdest : dest + len ≤ σ.logical_max_memory_size) :
    ∀ p, (σ.copy_internal src dest len).bytes p =
      if dest ≤ p ∧ p < dest + len then σ.bytes (src + (p - dest))
      else σ.bytes p := by
  intro p
  by_cases hl0 : len = 0
  · subst hl0
    unfold copy_internal
    rw [if_pos rfl, if_neg (by omega)]
  · unfold copy_internal
    rw [if_neg hl0, if_neg (by omega)]
    lift_lets
    extract_lets lm ms s1 s2
    have hlm : lm = σ.logical_max_memory_size := rfl
    have hms : ms = len := by
      show min len (min (lm - src) (lm - dest)) = len
      rw [hlm]
      omega
    by_cases hsd : src = dest
    · rw [if_pos (Or.inr hsd)]
      subst hsd
      by_cases hw : src ≤ p ∧ p < src + len
      · rw [if_pos hw]
        congr 1
        omega
      · rw [if_neg hw]
    · rw [if_neg (by rw [hms]; exact fun hc => hc.elim hl0 hsd), hms]
      have hs1d : s1 = σ.ensure_capacity (src + ms) := rfl
      have hs2d : s2 = s1.ensure_capacity (dest + ms) := rfl
      have hs2b : s2.bytes = σ.bytes := by
        rw [hs2d, (ensure_capacity_fields s1 (dest + ms)).1, hs1d,
          (ensure_capacity_fields σ (src + ms)).1]
      have hs2sz : σ.size ≤ s2.size := by
        have h1 := (ensure_capacity_fields σ (src + ms)).2.2.2.2
        have h2 := (ensure_capacity_fields s1 (dest + ms)).2.2.2.2
        rw [← hs1d] at h1
        rw [← hs2d] at h2
        omega
      have hs2L : s2.logical_max_memory_size = σ.logical_max_memory_size := by
        rw [hs2d, ensure_capacity_logical_max, hs1d,
          ensure_capacity_logical_max]
      by_cases hov : src < dest ∧ dest < src + len
      · rw [if_pos hov]
        exact copy_backward_go_spec σ.bytes src dest len
          σ.logical_max_memory_size σ.size hinv hdest hov.1 len s2 len
          (le_refl len) (le_refl len) hs2L hs2sz
          (fun q => by rw [hs2b, if_neg (by omega)]) p
      · rw [if_neg hov]
        exact copy_forward_go_spec σ.bytes src dest len
          σ.logical_max_memory_size σ.size hinv hsrc hdest (by omega) len s2 0
          (by omega) (by omega) hs2L hs2sz
          (fun q => by rw [hs2b, if_neg (by omega)]) p

/-- Witness for C9: on a fresh 10-byte stream, writing `[7, 9]` at offset
3 and reading two bytes back from offset 3 returns `[7, 9]`. -/
theorem c9_write_read_roundtrip_witness :
    3 + [7, 9].length <
      (MemoryStream.new 5 10 0).logical_max_memory_size ∧
    (((((MemoryStream.new 5 10 0).set_offset 3).1.write
      [7, 9]).set_offset 3).1.read [7, 9].length).1 = [7, 9] :=
  ⟨by decide, c9_write_read_roundtrip (MemoryStream.new 5 10 0) 3 [7, 9]
    (by decide)⟩

end MemoryStream

namespace MemoryStream


/-- Witness for C8: copying 3 bytes from offset 1 to the overlapping
offset 2 (the back-to-front path) moves byte 13 from offset 2 to
offset 3. -/
theorem c8_copy_internal_memmove_witness :
    1 + 3 ≤ c8WitnessStream.logical_max_memory_size ∧
    2 + 3 ≤ c8WitnessStream.logical_max_memory_size ∧
    (c8WitnessStream.copy_internal 1 2 3).bytes 3 =
      (if 2 ≤ 3 ∧ 3 < 2 + 3 then c8WitnessStream.bytes (1 + (3 - 2))
       else c8WitnessStream.bytes 3) :=
  ⟨by decide, by decide,
    c8_copy_internal_memmove c8WitnessStream 1 2 3
      (fun p hp => by
        have h5 : 5 ≤ p := hp
        show (if p < 5 then p + 11 else 0) = 0
        rw [if_neg (by omega)])
      (by decide) (by decide) 3⟩


end MemoryStream
